import Mathlib

/-!
# Verification of the DnD character NFT backend

A shallow embedding of the core of the `dnd-nft-backend` repository:

* the on-chain progression state machine of `src/contracts/DnDCharacterNFT.sol`
  (mint, evolveCharacter, gainExperience, advanceSeason, calculatePower,
  setSeasonalPower, getCharacter, totalSupply);
* the TypeScript `CharacterService` (`createCharacter` saga, `generateBaseStats`,
  `gainExperience` pass-through, `getCharactersByOwner` registry scan) together
  with the `AIService` error wrapping it relies on.

Solidity `uint256` values are modelled as `Nat` together with the checked
arithmetic of Solidity ^0.8: an operation whose result would reach `2^256`
reverts (modelled as `Except.error`), it never wraps.  A revert leaves the
contract state unchanged, which the `step` function below makes explicit.
-/

namespace DnD

/-- The first value that does not fit in an EVM word (`2^256`). -/
def UMAX : Nat := 2 ^ 256

/-- Checked `uint256` addition of Solidity ^0.8: reverts on overflow. -/
def uadd (a b : Nat) : Except String Nat :=
  if a + b < UMAX then .ok (a + b) else .error "arithmetic overflow"

/-- Checked `uint256` multiplication of Solidity ^0.8: reverts on overflow. -/
def umul (a b : Nat) : Except String Nat :=
  if a * b < UMAX then .ok (a * b) else .error "arithmetic overflow"

/-- The `Character` struct of `DnDCharacterNFT.sol` (six attributes,
experience, level, season of minting and the one-way evolution flag). -/
structure Character where
  strength : Nat
  dexterity : Nat
  constitution : Nat
  intelligence : Nat
  wisdom : Nat
  charisma : Nat
  experience : Nat
  level : Nat
  seasonId : Nat
  evolved : Bool
deriving Repr, DecidableEq

/-- The Solidity default value of the `Character` struct: an unset slot of the
`characters` mapping reads as all-zero fields and `evolved = false`. -/
def defaultCharacter : Character :=
  { strength := 0, dexterity := 0, constitution := 0, intelligence := 0
    wisdom := 0, charisma := 0, experience := 0, level := 0, seasonId := 0
    evolved := false }

/-- The `uint256[6]` stats argument of `mint` and `evolveCharacter`;
index `i` of the Solidity array is field `sᵢ`. -/
structure Stats6 where
  s0 : Nat
  s1 : Nat
  s2 : Nat
  s3 : Nat
  s4 : Nat
  s5 : Nat
deriving Repr, DecidableEq

/-- The storage of the `DnDCharacterNFT` contract.  Solidity mappings are total
functions that read zero (resp. the empty list / empty string) on unset keys.
`ownerOfTok` is the ERC721 owner mapping maintained by `_safeMint`. -/
structure ContractState where
  tokenIds : Nat
  currentSeason : Nat
  tokenExistsMap : Nat → Bool
  characters : Nat → Character
  seasonalPower : Nat → Nat → Nat
  ownerOfTok : Nat → String
  playerCharacters : String → List Nat
  tokenURIOf : Nat → String

/-- The state right after the constructor ran: counters at their initial
values (`_tokenIds = 0`, `currentSeason = 1`) and every mapping empty. -/
def initialState : ContractState :=
  { tokenIds := 0
    currentSeason := 1
    tokenExistsMap := fun _ => false
    characters := fun _ => defaultCharacter
    seasonalPower := fun _ _ => 0
    ownerOfTok := fun _ => ""
    playerCharacters := fun _ => []
    tokenURIOf := fun _ => "" }

/-- `XP_PER_LEVEL` constant of the contract. -/
def XP_PER_LEVEL : Nat := 1000

/-- `EVOLUTION_THRESHOLD` constant of the contract. -/
def EVOLUTION_THRESHOLD : Nat := 5

/-- The `_exists` helper of the contract (a read of `_tokenExists`). -/
def tokenExists (s : ContractState) (tokenId : Nat) : Bool :=
  s.tokenExistsMap tokenId

/-- Events emitted by the contract; only the ones the verified claims look at
are carried (`LevelUp` and `ExperienceGained` of `gainExperience`). -/
inductive Event where
  | LevelUp (tokenId newLevel : Nat)
  | ExperienceGained (tokenId amount : Nat)
deriving Repr, DecidableEq

/-- `mint(player, stats, tokenURI)`:  increments `_tokenIds` (checked), marks
the fresh id existing, stores a fresh `Character` with the six supplied stats,
`experience = 0`, `level = 1`, `seasonId = currentSeason`, `evolved = false`,
appends the id to `playerCharacters[player]`, records ERC721 ownership and the
token URI, and returns the fresh id. -/
def mint (s : ContractState) (player : String) (stats : Stats6) (uri : String) :
    Except String (ContractState × Nat) :=
  match uadd s.tokenIds 1 with
  | .error e => .error e
  | .ok newTokenId =>
  let newCharacter : Character :=
    { strength := stats.s0, dexterity := stats.s1, constitution := stats.s2
      intelligence := stats.s3, wisdom := stats.s4, charisma := stats.s5
      experience := 0, level := 1, seasonId := s.currentSeason, evolved := false }
  .ok
    ({ s with
        tokenIds := newTokenId
        tokenExistsMap := fun j => if j = newTokenId then true else s.tokenExistsMap j
        characters := fun j => if j = newTokenId then newCharacter else s.characters j
        ownerOfTok := fun j => if j = newTokenId then player else s.ownerOfTok j
        playerCharacters := fun p =>
          if p = player then s.playerCharacters p ++ [newTokenId]
          else s.playerCharacters p
        tokenURIOf := fun j => if j = newTokenId then uri else s.tokenURIOf j },
      newTokenId)

/-- `evolveCharacter(tokenId, newStats, newTokenURI)`:  requires the token to
exist, not to be evolved yet, and to have reached `EVOLUTION_THRESHOLD`;
then assigns a fresh id carrying a new `Character` built from `newStats`
with `experience = 0`, `level = 1`, `seasonId = currentSeason` and
`evolved = true` (the contract literally stores `evolved: true` on the new
record), flags the source record `evolved`, and credits the new token to the
source token's owner. -/
def evolveCharacter (s : ContractState) (tokenId : Nat) (newStats : Stats6)
    (newUri : String) : Except String (ContractState × Nat) :=
  if ¬ tokenExists s tokenId then
    .error "Character does not exist"
  else if (s.characters tokenId).evolved then
    .error "Character already evolved"
  else if (s.characters tokenId).level < EVOLUTION_THRESHOLD then
    .error "Level too low for evolution"
  else
    match uadd s.tokenIds 1 with
    | .error e => .error e
    | .ok evolvedTokenId =>
    let owner := s.ownerOfTok tokenId
    let evolvedCharacter : Character :=
      { strength := newStats.s0, dexterity := newStats.s1
        constitution := newStats.s2, intelligence := newStats.s3
        wisdom := newStats.s4, charisma := newStats.s5
        experience := 0, level := 1, seasonId := s.currentSeason, evolved := true }
    .ok
      ({ s with
          tokenIds := evolvedTokenId
          tokenExistsMap := fun j => if j = evolvedTokenId then true else s.tokenExistsMap j
          characters := fun j =>
            if j = evolvedTokenId then evolvedCharacter
            else if j = tokenId then { s.characters j with evolved := true }
            else s.characters j
          ownerOfTok := fun j => if j = evolvedTokenId then owner else s.ownerOfTok j
          playerCharacters := fun p =>
            if p = owner then s.playerCharacters p ++ [evolvedTokenId]
            else s.playerCharacters p
          tokenURIOf := fun j => if j = evolvedTokenId then newUri else s.tokenURIOf j },
        evolvedTokenId)

/-- `gainExperience(tokenId, amount)`: requires the token to exist, performs
`character.experience += amount` (checked), recomputes
`newLevel = experience / XP_PER_LEVEL + 1` and raises the stored level exactly
when `newLevel > level`, emitting `LevelUp` in that case and always emitting
`ExperienceGained`. -/
def gainExperience (s : ContractState) (tokenId amount : Nat) :
    Except String (ContractState × List Event) :=
  if ¬ tokenExists s tokenId then
    .error "Character does not exist"
  else
    let c := s.characters tokenId
    match uadd c.experience amount with
    | .error e => .error e
    | .ok newExperience =>
    let newLevel := newExperience / XP_PER_LEVEL + 1
    let c' : Character :=
      if newLevel > c.level then { c with experience := newExperience, level := newLevel }
      else { c with experience := newExperience }
    let events :=
      if newLevel > c.level then
        [Event.LevelUp tokenId newLevel, Event.ExperienceGained tokenId amount]
      else [Event.ExperienceGained tokenId amount]
    .ok
      ({ s with characters := fun j => if j = tokenId then c' else s.characters j },
        events)

/-- `advanceSeason()`: `currentSeason++` (checked). -/
def advanceSeason (s : ContractState) : Except String ContractState :=
  match uadd s.currentSeason 1 with
  | .error e => .error e
  | .ok newSeason => .ok { s with currentSeason := newSeason }

/-- `calculatePower(tokenId)`: sums the six attributes of
`characters[tokenId]` (with no existence check), multiplies by the level,
doubles if evolved, and adds `seasonalPower[tokenId][currentSeason]`; every
arithmetic step is checked. -/
def calculatePower (s : ContractState) (tokenId : Nat) : Except String Nat :=
  let c := s.characters tokenId
  match uadd c.strength c.dexterity with
  | .error e => .error e
  | .ok p1 =>
  match uadd p1 c.constitution with
  | .error e => .error e
  | .ok p2 =>
  match uadd p2 c.intelligence with
  | .error e => .error e
  | .ok p3 =>
  match uadd p3 c.wisdom with
  | .error e => .error e
  | .ok p4 =>
  match uadd p4 c.charisma with
  | .error e => .error e
  | .ok basePower =>
  match umul basePower c.level with
  | .error e => .error e
  | .ok leveled =>
  match (if c.evolved then umul leveled 2 else .ok leveled) with
  | .error e => .error e
  | .ok powered =>
  uadd powered (s.seasonalPower tokenId s.currentSeason)

/-- `setSeasonalPower(tokenId, power)`: requires the token to exist and writes
`seasonalPower[tokenId][currentSeason]`. -/
def setSeasonalPower (s : ContractState) (tokenId power : Nat) :
    Except String ContractState :=
  if tokenExists s tokenId then
    .ok { s with
      seasonalPower := fun j se =>
        if j = tokenId then (if se = s.currentSeason then power else s.seasonalPower j se)
        else s.seasonalPower j se }
  else .error "Character does not exist"

/-- `getCharacter(tokenId)`: requires the token to exist and returns the
stored struct. -/
def getCharacter (s : ContractState) (tokenId : Nat) : Except String Character :=
  if tokenExists s tokenId then .ok (s.characters tokenId)
  else .error "Character does not exist"

/-- `totalSupply()`: the `_tokenIds` counter. -/
def totalSupply (s : ContractState) : Nat := s.tokenIds

/-- The state-changing entry points of the contract, used to talk about the
states reachable from `initialState`. -/
inductive Op where
  | mintOp (player : String) (stats : Stats6) (uri : String)
  | evolveOp (tokenId : Nat) (newStats : Stats6) (newUri : String)
  | gainOp (tokenId amount : Nat)
  | advanceSeasonOp
  | setSeasonalPowerOp (tokenId power : Nat)

/-- One transaction: a revert (an `Except.error`) leaves the state unchanged. -/
def step (s : ContractState) (op : Op) : ContractState :=
  match op with
  | .mintOp player stats uri =>
      match mint s player stats uri with
      | .ok (s', _) => s'
      | .error _ => s
  | .evolveOp tokenId newStats newUri =>
      match evolveCharacter s tokenId newStats newUri with
      | .ok (s', _) => s'
      | .error _ => s
  | .gainOp tokenId amount =>
      match gainExperience s tokenId amount with
      | .ok (s', _) => s'
      | .error _ => s
  | .advanceSeasonOp =>
      match advanceSeason s with
      | .ok s' => s'
      | .error _ => s
  | .setSeasonalPowerOp tokenId power =>
      match setSeasonalPower s tokenId power with
      | .ok s' => s'
      | .error _ => s

/-- Run a list of transactions from a state. -/
def exec (s : ContractState) (ops : List Op) : ContractState :=
  ops.foldl step s

/-! ## The TypeScript `CharacterService` layer -/

/-- The `CharacterClass` enumeration of `utils/types.ts`. -/
inductive CharacterClass where
  | warrior
  | mage
  | rogue
  | cleric
  | bard
deriving Repr, DecidableEq

/-- The six attribute names, in the property order of the `maxStats` object
literals of `CharacterService.generateBaseStats` (which is also the iteration
order of `for ... in` and `Object.entries` over them). -/
inductive StatName where
  | strength
  | dexterity
  | constitution
  | intelligence
  | wisdom
  | charisma
deriving Repr, DecidableEq

/-- The per-class `maxStats` table of `CharacterService.generateBaseStats`,
exactly as configured in the source. -/
def maxStatsFor (cls : CharacterClass) (st : StatName) : Nat :=
  match cls, st with
  | .warrior, .strength => 16
  | .warrior, .dexterity => 12
  | .warrior, .constitution => 14
  | .warrior, .intelligence => 8
  | .warrior, .wisdom => 10
  | .warrior, .charisma => 10
  | .mage, .strength => 8
  | .mage, .dexterity => 12
  | .mage, .constitution => 10
  | .mage, .intelligence => 16
  | .mage, .wisdom => 14
  | .mage, .charisma => 10
  | .rogue, .strength => 10
  | .rogue, .dexterity => 16
  | .rogue, .constitution => 12
  | .rogue, .intelligence => 12
  | .rogue, .wisdom => 10
  | .rogue, .charisma => 14
  | .cleric, .strength => 12
  | .cleric, .dexterity => 10
  | .cleric, .constitution => 14
  | .cleric, .intelligence => 10
  | .cleric, .wisdom => 16
  | .cleric, .charisma => 12
  | .bard, .strength => 10
  | .bard, .dexterity => 14
  | .bard, .constitution => 12
  | .bard, .intelligence => 12
  | .bard, .wisdom => 10
  | .bard, .charisma => 16

/-- `MIN_STAT` of `CharacterService.generateBaseStats`. -/
def MIN_STAT : Nat := 10

/-- The clamping loop of `generateBaseStats`:
`classMaxStats[stat] = Math.max(classMaxStats[stat], MIN_STAT)`. -/
def clampedMax (tbl : StatName → Nat) (st : StatName) : Nat :=
  max (tbl st) MIN_STAT

/-- One stat of the rolling step of `generateBaseStats`:
`Math.floor(Math.random() * (maxValue - MIN_STAT + 1)) + MIN_STAT`,
where `maxValue` is the already-clamped ceiling and the `Math.random()` draw
is the rational `r` (a value in `[0,1)`). -/
def rolledStat (maxValue : Nat) (r : ℚ) : ℤ :=
  ⌊r * ((maxValue - MIN_STAT + 1 : Nat) : ℚ)⌋ + (MIN_STAT : ℤ)

/-- `generateBaseStats` for an arbitrary (possibly misconfigured) ceiling
table: clamp each ceiling up to `MIN_STAT`, then roll each of the six stats
from its own random draw. -/
def generateBaseStatsTable (tbl : StatName → Nat) (draws : StatName → ℚ)
    (st : StatName) : ℤ :=
  rolledStat (clampedMax tbl st) (draws st)

/-- `CharacterService.generateBaseStats(characterClass)`, with the six
`Math.random()` draws passed explicitly. -/
def generateBaseStats (cls : CharacterClass) (draws : StatName → ℚ)
    (st : StatName) : ℤ :=
  generateBaseStatsTable (maxStatsFor cls) draws st

/-! ### The creation saga (`CharacterService.createCharacter`)

The collaborators (OpenAI via `AIService`, Pinata via `IPFSService`, the
wallet service) are modelled by an environment holding the outcome of each
call; the saga itself is the control flow of `createCharacter`, which also
records the stages it executes, in order. -/

/-- The string value of the `CharacterClass` enum of `utils/types.ts`. -/
def className (cls : CharacterClass) : String :=
  match cls with
  | .warrior => "warrior"
  | .mage => "mage"
  | .rogue => "rogue"
  | .cleric => "cleric"
  | .bard => "bard"

/-- The object returned by `AIService.generateCharacterStory`. -/
structure CharacterDetails where
  name : String
  backstory : String
  appearance : String
  personality : Option String
deriving Repr, DecidableEq

/-- A thrown service error: message plus the optional machine-readable `code`
(`AIServiceError` / `IPFSServiceError` / `ServiceError` carry one; a plain
`Error` does not). -/
structure ServiceErr where
  message : String
  code : Option String
deriving Repr, DecidableEq

/-- `AIService.generateCharacterStory`: wraps any underlying failure into an
`AIServiceError` with code `STORY_GENERATION_FAILED`. -/
def generateCharacterStory (raw : Except String CharacterDetails) :
    Except ServiceErr CharacterDetails :=
  match raw with
  | .ok d => .ok d
  | .error m =>
      .error { message := "Failed to generate character story: " ++ m
               code := some "STORY_GENERATION_FAILED" }

/-- `AIService.generateCharacterImage`: wraps any underlying failure into an
`AIServiceError` with code `IMAGE_GENERATION_FAILED`. -/
def generateCharacterImage (raw : Except String (List Nat)) :
    Except ServiceErr (List Nat) :=
  match raw with
  | .ok b => .ok b
  | .error m =>
      .error { message := "Failed to generate image: " ++ m
               code := some "IMAGE_GENERATION_FAILED" }

/-- `IPFSService.uploadFile`: returns `ipfs://hash` on success, otherwise an
`IPFSServiceError` with code `UPLOAD_FAILED`. -/
def uploadFile (raw : Except String String) : Except ServiceErr String :=
  match raw with
  | .ok hash => .ok ("ipfs://" ++ hash)
  | .error m =>
      .error { message := "Failed to upload file: " ++ m
               code := some "UPLOAD_FAILED" }

/-- `IPFSService.uploadMetadata`: returns `ipfs://hash` on success, otherwise
an `IPFSServiceError` with code `UPLOAD_FAILED`. -/
def uploadMetadata (raw : Except String String) : Except ServiceErr String :=
  match raw with
  | .ok hash => .ok ("ipfs://" ++ hash)
  | .error m =>
      .error { message := "Failed to upload metadata: " ++ m
               code := some "UPLOAD_FAILED" }

/-- A value of a metadata attribute (`value` is a string or a number in the
published JSON). -/
inductive MetaValue where
  | str (s : String)
  | num (n : ℤ)
deriving Repr, DecidableEq

/-- One entry of the `attributes` array of the published metadata. -/
structure MetaAttr where
  traitType : String
  value : MetaValue
deriving Repr, DecidableEq

/-- The metadata object assembled at step 5 of `createCharacter`. -/
structure Metadata where
  name : String
  description : String
  image : String
  attributes : List MetaAttr
deriving Repr, DecidableEq

/-- `key.charAt(0).toUpperCase() + key.slice(1)` over the six stat keys. -/
def statDisplayName (st : StatName) : String :=
  match st with
  | .strength => "Strength"
  | .dexterity => "Dexterity"
  | .constitution => "Constitution"
  | .intelligence => "Intelligence"
  | .wisdom => "Wisdom"
  | .charisma => "Charisma"

/-- The key order of the `maxStats` object literals, which `Object.entries`
preserves. -/
def statOrder : List StatName :=
  [.strength, .dexterity, .constitution, .intelligence, .wisdom, .charisma]

/-- Step 5 of `createCharacter`: the metadata object, with the attribute list
in source order — Class, Level, the six stats, Personality. -/
def buildMetadata (details : CharacterDetails) (imageUri : String)
    (cls : CharacterClass) (baseStats : StatName → ℤ) : Metadata :=
  { name := details.name
    description := details.backstory
    image := imageUri
    attributes :=
      [⟨"Class", .str (className cls)⟩, ⟨"Level", .num 1⟩]
        ++ statOrder.map (fun st => ⟨statDisplayName st, .num (baseStats st)⟩)
        ++ [⟨"Personality", .str (details.personality.getD "Unknown")⟩] }

/-- The stages of the creation saga, named after the spec's vocabulary; the
saga records each stage it begins, in execution order. -/
inductive Stage where
  | narrative
  | portrait
  | publishImage
  | rollStats
  | metadataBuild
  | publishMetadata
  | mintStage
deriving Repr, DecidableEq

/-- The receipt of the wallet-service `mint` invocation. -/
structure MintReceipt where
  hash : String
  transactionLink : String
deriving Repr, DecidableEq

/-- The environment of one `createCharacter` run: the outcome of each
collaborator call and the `Math.random()` draws of the stat roll. -/
structure SagaEnv where
  storyRaw : Except String CharacterDetails
  imageRaw : Except String (List Nat)
  uploadFileRaw : Except String String
  draws : StatName → ℚ
  uploadMetadataRaw : Except String String
  mintRaw : Except ServiceErr MintReceipt

/-- The value returned by a successful `createCharacter`. -/
structure SagaResult where
  transactionHash : String
  transactionLink : String
  ownerAddr : String
  klass : CharacterClass
  stats : List ℤ
deriving Repr, DecidableEq

/-- `CharacterService.createCharacter(playerAddress, characterClass)`:
the saga in source order — generate narrative, generate portrait, upload the
image (its failure rethrown as a plain `Failed to upload image` error), roll
base stats, build metadata, upload metadata, mint.  The outer catch rethrows
errors unchanged.  The second component is the list of stages begun, in
execution order. -/
def createCharacter (env : SagaEnv) (playerAddress : String)
    (cls : CharacterClass) : Except ServiceErr SagaResult × List Stage :=
  match generateCharacterStory env.storyRaw with
  | .error e => (.error e, [.narrative])
  | .ok details =>
    match generateCharacterImage env.imageRaw with
    | .error e => (.error e, [.narrative, .portrait])
    | .ok _imageBuffer =>
      match uploadFile env.uploadFileRaw with
      | .error e =>
          (.error { message := "Failed to upload image: " ++ e.message, code := none },
            [.narrative, .portrait, .publishImage])
      | .ok imageUri =>
        let baseStats := generateBaseStats cls env.draws
        let _metadata := buildMetadata details imageUri cls baseStats
        match uploadMetadata env.uploadMetadataRaw with
        | .error e =>
            (.error e,
              [.narrative, .portrait, .publishImage, .rollStats, .metadataBuild,
                .publishMetadata])
        | .ok _metadataUri =>
          match env.mintRaw with
          | .error e =>
              (.error e,
                [.narrative, .portrait, .publishImage, .rollStats, .metadataBuild,
                  .publishMetadata, .mintStage])
          | .ok receipt =>
              (.ok { transactionHash := receipt.hash
                     transactionLink := receipt.transactionLink
                     ownerAddr := playerAddress
                     klass := cls
                     stats := statOrder.map baseStats },
                [.narrative, .portrait, .publishImage, .rollStats, .metadataBuild,
                  .publishMetadata, .mintStage])

/-! ### The registry read path (`CharacterService.getCharactersByOwner`) -/

/-- `toLowerCase()` on an address string (character-wise lowercasing). -/
def lowerStr (a : String) : String := ⟨a.data.map Char.toLower⟩

/-- One entry of the list `getCharactersByOwner` returns (token id, owner and
the on-chain character data it read). -/
structure ProcessedCharacter where
  tokenId : Nat
  owner : String
  character : Character
deriving Repr, DecidableEq

/-- `CharacterService.getCharactersByOwner(ownerAddress, page, limit)`:
reads `totalSupply`, returns empty at zero supply, otherwise loops
`tokenId = 1 .. totalSupply` accumulating the tokens whose owner matches the
queried address case-insensitively, then slices
`[(page-1)*limit, (page-1)*limit + limit)` out of the accumulated list while
reporting the unsliced length as `total`. -/
def getCharactersByOwner (s : ContractState) (ownerAddress : String)
    (page limit : Nat) : List ProcessedCharacter × Nat :=
  let supply := totalSupply s
  if supply = 0 then ([], 0)
  else
    let chars := (List.range' 1 supply).foldl
      (fun acc tokenId =>
        let owner := s.ownerOfTok tokenId
        if lowerStr owner = lowerStr ownerAddress then
          acc ++ [{ tokenId := tokenId, owner := owner
                    character := s.characters tokenId }]
        else acc)
      []
    let start := (page - 1) * limit
    ((chars.drop start).take limit, chars.length)

/-- The registry contract as the spec words it: filter the token range
`1 .. totalSupply` by case-insensitive owner match, report the filtered
count as the total, and paginate the filtered list after the fact.
(This is the spec-side description `getCharactersByOwner` is compared to.) -/
def listByOwnerSpec (s : ContractState) (ownerAddress : String)
    (page limit : Nat) : List ProcessedCharacter × Nat :=
  let matching :=
    ((List.range' 1 (totalSupply s)).filter
        (fun id => lowerStr (s.ownerOfTok id) = lowerStr ownerAddress)).map
      (fun id => { tokenId := id, owner := s.ownerOfTok id
                   character := s.characters id })
  ((matching.drop ((page - 1) * limit)).take limit, matching.length)

/-! ### The progression pass-through (`CharacterService.gainExperience`) -/

/-- A ledger invocation as issued by `walletService.invokeContract`: the
method name and its named arguments, still as JavaScript numbers. -/
structure InvokeRequest where
  methodName : String
  argTokenId : ℤ
  argAmount : ℤ
deriving Repr, DecidableEq

/-- The method-name dispatch of `WalletService.invokeContract`: the
`switch (method)` shapes named arguments only for `mint` and for
`transferFrom`/`safeTransferFrom`; every other method name throws
`Unsupported method: <method>` before the wallet is ever invoked.
`walletOutcome` models the Coinbase-SDK `wallet.invokeContract` result for a
supported method (a collaborator outcome; the unsupported path never
consults it). -/
def invokeContractDispatch (method : String)
    (walletOutcome : Except String String) : Except String String :=
  if method = "mint" ∨ method = "transferFrom" ∨ method = "safeTransferFrom" then
    walletOutcome
  else .error ("Unsupported method: " ++ method)

/-- `CharacterService.gainExperience(tokenId, amount)`: issues the
`gainExperience` ledger invocation with the arguments exactly as received
(the service has no validation step) and wraps any failure into a
`ServiceError` with code `EXPERIENCE_GAIN_FAILED`.  The first component is
the list of ledger invocations the service issued.  No contract state
appears here: the wallet service's dispatch rejects the `gainExperience`
method name before any encoding or on-chain submission, so this path never
reaches the ledger. -/
def serviceGainExperience (tokenId amount : ℤ)
    (walletOutcome : Except String String) :
    List InvokeRequest × Except ServiceErr String :=
  let req : InvokeRequest :=
    { methodName := "gainExperience", argTokenId := tokenId, argAmount := amount }
  ([req],
    match invokeContractDispatch "gainExperience" walletOutcome with
    | .ok tx => .ok tx
    | .error m =>
        .error { message := "Failed to gain experience: " ++ m
                 code := some "EXPERIENCE_GAIN_FAILED" })

/-- The character stored by `mint` for stats `st` in season `season`. -/
def mintedCharacter (st : Stats6) (season : Nat) : Character :=
  { strength := st.s0, dexterity := st.s1, constitution := st.s2
    intelligence := st.s3, wisdom := st.s4, charisma := st.s5
    experience := 0, level := 1, seasonId := season, evolved := false }

/-- The character stored by `evolveCharacter` for the fresh token: identical
to a minted one except that its `evolved` flag is already `true`. -/
def evolvedCharacter (st : Stats6) (season : Nat) : Character :=
  { mintedCharacter st season with evolved := true }

/-- Facts true of every state the contract can reach: minted ids fill
`1 .. tokenIds`; unminted slots read as their zero defaults (in particular
their seasonal power is `0`, since `setSeasonalPower` requires existence);
and no stored record's level ever lags behind what its experience implies. -/
structure Inv (s : ContractState) : Prop where
  exists_bounds : ∀ j, tokenExists s j = true → 1 ≤ j ∧ j ≤ s.tokenIds
  ghost_char : ∀ j, tokenExists s j = false → s.characters j = defaultCharacter
  ghost_power : ∀ j se, tokenExists s j = false → s.seasonalPower j se = 0
  level_eq : ∀ j, tokenExists s j = true →
      (s.characters j).level = (s.characters j).experience / XP_PER_LEVEL + 1

/-! ## Characterization of the successful transactions -/

theorem uadd_ok_of_lt {a b : Nat} (h : a + b < UMAX) : uadd a b = .ok (a + b) := by
  simp [uadd, h]

theorem uadd_ok_iff {a b c : Nat} : uadd a b = .ok c ↔ a + b < UMAX ∧ c = a + b := by
  unfold uadd
  split <;> simp_all [eq_comm]

theorem umul_ok_iff {a b c : Nat} : umul a b = .ok c ↔ a * b < UMAX ∧ c = a * b := by
  unfold umul
  split <;> simp_all [eq_comm]

theorem mint_ok_shape {s : ContractState} {p : String} {st : Stats6} {u : String}
    {s' : ContractState} {id : Nat} (h : mint s p st u = .ok (s', id)) :
    s.tokenIds + 1 < UMAX ∧ id = s.tokenIds + 1 ∧
    s'.tokenIds = s.tokenIds + 1 ∧
    (∀ j, s'.tokenExistsMap j =
      if j = s.tokenIds + 1 then true else s.tokenExistsMap j) ∧
    (∀ j, s'.characters j =
      if j = s.tokenIds + 1 then mintedCharacter st s.currentSeason
      else s.characters j) ∧
    (∀ j se, s'.seasonalPower j se = s.seasonalPower j se) ∧
    s'.currentSeason = s.currentSeason ∧
    (∀ j, s'.ownerOfTok j = if j = s.tokenIds + 1 then p else s.ownerOfTok j) := by
  unfold mint at h
  cases hu : uadd s.tokenIds 1 with
  | error e => rw [hu] at h; simp at h
  | ok v =>
    rw [hu] at h
    dsimp only at h
    obtain ⟨hlt, hv⟩ := uadd_ok_iff.mp hu
    subst hv
    simp only [Except.ok.injEq, Prod.mk.injEq] at h
    obtain ⟨hs, hid⟩ := h
    subst hs
    subst hid
    refine ⟨hlt, rfl, rfl, fun j => ?_, fun j => ?_, fun j se => rfl, rfl, fun j => rfl⟩
    · by_cases hj : j = s.tokenIds + 1 <;> simp [hj]
    · by_cases hj : j = s.tokenIds + 1 <;> simp [hj, mintedCharacter]

theorem evolve_ok_shape {s : ContractState} {tokenId : Nat} {st : Stats6}
    {u : String} {s' : ContractState} {newId : Nat}
    (h : evolveCharacter s tokenId st u = .ok (s', newId)) :
    tokenExists s tokenId = true ∧
    (s.characters tokenId).evolved = false ∧
    EVOLUTION_THRESHOLD ≤ (s.characters tokenId).level ∧
    s.tokenIds + 1 < UMAX ∧ newId = s.tokenIds + 1 ∧
    s'.tokenIds = s.tokenIds + 1 ∧
    (∀ j, s'.tokenExistsMap j =
      if j = s.tokenIds + 1 then true else s.tokenExistsMap j) ∧
    (∀ j, s'.characters j =
      if j = s.tokenIds + 1 then evolvedCharacter st s.currentSeason
      else if j = tokenId then { s.characters j with evolved := true }
      else s.characters j) ∧
    (∀ j se, s'.seasonalPower j se = s.seasonalPower j se) ∧
    s'.currentSeason = s.currentSeason ∧
    (∀ j, s'.ownerOfTok j =
      if j = s.tokenIds + 1 then s.ownerOfTok tokenId else s.ownerOfTok j) := by
  unfold evolveCharacter at h
  split at h
  · simp at h
  · rename_i hex
    split at h
    · simp at h
    · rename_i hev
      split at h
      · simp at h
      · rename_i hlv
        cases hu : uadd s.tokenIds 1 with
        | error e => rw [hu] at h; simp at h
        | ok v =>
          rw [hu] at h
          dsimp only at h
          obtain ⟨hlt, hv⟩ := uadd_ok_iff.mp hu
          subst hv
          simp only [Except.ok.injEq, Prod.mk.injEq] at h
          obtain ⟨hs, hid⟩ := h
          subst hs
          subst hid
          refine ⟨by simpa using hex, by simpa using hev, by omega, hlt,
            rfl, rfl, fun j => ?_, fun j => ?_, fun j se => rfl, rfl, fun j => ?_⟩
          · by_cases hj : j = s.tokenIds + 1 <;> simp [hj]
          · by_cases hj : j = s.tokenIds + 1
            · simp [hj, evolvedCharacter, mintedCharacter]
            · by_cases ht : j = tokenId
              · subst ht; simp [hj]
              · simp [hj, ht]
          · by_cases hj : j = s.tokenIds + 1 <;> simp [hj]

theorem gain_ok_shape {s : ContractState} {tokenId amount : Nat}
    {s' : ContractState} {evs : List Event}
    (h : gainExperience s tokenId amount = .ok (s', evs)) :
    tokenExists s tokenId = true ∧
    (s.characters tokenId).experience + amount < UMAX ∧
    (∀ j, s'.tokenExistsMap j = s.tokenExistsMap j) ∧
    (∀ j, j ≠ tokenId → s'.characters j = s.characters j) ∧
    (s'.characters tokenId =
      (let c := s.characters tokenId
       let newExperience := c.experience + amount
       let newLevel := newExperience / XP_PER_LEVEL + 1
       if newLevel > c.level then
         { c with experience := newExperience, level := newLevel }
       else { c with experience := newExperience })) ∧
    (evs =
      (let c := s.characters tokenId
       let newLevel := (c.experience + amount) / XP_PER_LEVEL + 1
       if newLevel > c.level then
         [Event.LevelUp tokenId newLevel, Event.ExperienceGained tokenId amount]
       else [Event.ExperienceGained tokenId amount])) ∧
    (∀ j se, s'.seasonalPower j se = s.seasonalPower j se) ∧
    s'.currentSeason = s.currentSeason ∧ s'.tokenIds = s.tokenIds ∧
    (∀ j, s'.ownerOfTok j = s.ownerOfTok j) := by
  unfold gainExperience at h
  split at h
  · simp at h
  · rename_i hex
    dsimp only at h
    cases hu : uadd (s.characters tokenId).experience amount with
    | error e => rw [hu] at h; simp at h
    | ok v =>
      rw [hu] at h
      dsimp only at h
      obtain ⟨hlt, hv⟩ := uadd_ok_iff.mp hu
      subst hv
      simp only [Except.ok.injEq, Prod.mk.injEq] at h
      obtain ⟨hs, hev⟩ := h
      subst hs
      refine ⟨by simpa using hex, hlt, fun j => rfl, fun j hj => by simp [hj],
        by simp, hev.symm, fun j se => rfl, rfl, rfl, fun j => rfl⟩

theorem setSeasonalPower_ok_shape {s : ContractState} {tokenId power : Nat}
    {s' : ContractState} (h : setSeasonalPower s tokenId power = .ok s') :
    tokenExists s tokenId = true ∧
    (∀ j, s'.tokenExistsMap j = s.tokenExistsMap j) ∧
    (∀ j, s'.characters j = s.characters j) ∧
    (∀ j se, s'.seasonalPower j se =
      if j = tokenId ∧ se = s.currentSeason then power else s.seasonalPower j se) ∧
    s'.currentSeason = s.currentSeason ∧ s'.tokenIds = s.tokenIds := by
  unfold setSeasonalPower at h
  split at h
  · simp only [Except.ok.injEq] at h
    subst h
    refine ⟨by assumption, fun j => rfl, fun j => rfl, fun j se => ?_, rfl, rfl⟩
    by_cases hj : j = tokenId <;> by_cases hse : se = s.currentSeason <;>
      simp [hj, hse]
  · simp at h

theorem advanceSeason_ok_shape {s s' : ContractState}
    (h : advanceSeason s = .ok s') :
    (∀ j, s'.tokenExistsMap j = s.tokenExistsMap j) ∧
    (∀ j, s'.characters j = s.characters j) ∧
    (∀ j se, s'.seasonalPower j se = s.seasonalPower j se) ∧
    s'.currentSeason = s.currentSeason + 1 ∧ s'.tokenIds = s.tokenIds := by
  unfold advanceSeason at h
  cases hu : uadd s.currentSeason 1 with
  | error e => rw [hu] at h; simp at h
  | ok v =>
    rw [hu] at h
    dsimp only at h
    obtain ⟨hlt, hv⟩ := uadd_ok_iff.mp hu
    subst hv
    simp only [Except.ok.injEq] at h
    subst h
    exact ⟨fun j => rfl, fun j => rfl, fun j se => rfl, rfl, rfl⟩

/-! ## The reachability invariant of the contract -/

theorem inv_initialState : Inv initialState := by
  constructor <;> intro j <;> simp [initialState, tokenExists]

theorem step_inv {s : ContractState} (hInv : Inv s) (op : Op) : Inv (step s op) := by
  cases op with
  | mintOp player stats uri =>
      cases hm : mint s player stats uri with
      | error e => simpa only [step, hm] using hInv
      | ok out =>
          obtain ⟨s', id⟩ := out
          obtain ⟨-, -, hids, hex, hch, hsp, -, -⟩ := mint_ok_shape hm
          simp only [step, hm]
          constructor
          · intro j hj
            rw [tokenExists, hex j] at hj
            by_cases h : j = s.tokenIds + 1
            · subst h; omega
            · simp only [h, if_false] at hj
              have := hInv.exists_bounds j hj
              omega
          · intro j hj
            rw [tokenExists, hex j] at hj
            by_cases h : j = s.tokenIds + 1
            · simp [h] at hj
            · rw [hch j]
              simp only [h, if_false] at hj ⊢
              exact hInv.ghost_char j hj
          · intro j se hj
            rw [tokenExists, hex j] at hj
            by_cases h : j = s.tokenIds + 1
            · simp [h] at hj
            · rw [hsp j se]
              simp only [h, if_false] at hj
              exact hInv.ghost_power j se hj
          · intro j hj
            rw [tokenExists, hex j] at hj
            rw [hch j]
            by_cases h : j = s.tokenIds + 1
            · simp [h, mintedCharacter, XP_PER_LEVEL]
            · simp only [h, if_false] at hj ⊢
              exact hInv.level_eq j hj
  | evolveOp tokenId newStats newUri =>
      cases hm : evolveCharacter s tokenId newStats newUri with
      | error e => simpa only [step, hm] using hInv
      | ok out =>
          obtain ⟨s', id⟩ := out
          obtain ⟨hsrc, -, -, -, -, hids, hex, hch, hsp, -, -⟩ := evolve_ok_shape hm
          simp only [step, hm]
          constructor
          · intro j hj
            rw [tokenExists, hex j] at hj
            by_cases h : j = s.tokenIds + 1
            · subst h; omega
            · simp only [h, if_false] at hj
              have := hInv.exists_bounds j hj
              omega
          · intro j hj
            rw [tokenExists, hex j] at hj
            by_cases h : j = s.tokenIds + 1
            · simp [h] at hj
            · simp only [h, if_false] at hj
              have hne : j ≠ tokenId := by
                intro hEq
                subst hEq
                rw [tokenExists] at hsrc
                simp [hsrc] at hj
              rw [hch j]
              simp only [h, if_false, hne, if_false]
              exact hInv.ghost_char j hj
          · intro j se hj
            rw [tokenExists, hex j] at hj
            by_cases h : j = s.tokenIds + 1
            · simp [h] at hj
            · rw [hsp j se]
              simp only [h, if_false] at hj
              exact hInv.ghost_power j se hj
          · intro j hj
            rw [tokenExists, hex j] at hj
            rw [hch j]
            by_cases h : j = s.tokenIds + 1
            · simp [h, evolvedCharacter, mintedCharacter, XP_PER_LEVEL]
            · simp only [h, if_false] at hj ⊢
              by_cases ht : j = tokenId
              · subst ht
                simp only [if_pos rfl]
                simpa using hInv.level_eq j hj
              · simp only [ht, if_false]
                exact hInv.level_eq j hj
  | gainOp tokenId amount =>
      cases hm : gainExperience s tokenId amount with
      | error e => simpa only [step, hm] using hInv
      | ok out =>
          obtain ⟨s', evs⟩ := out
          obtain ⟨hsrc, -, hex, hch, hcht, -, hsp, -, hids, -⟩ := gain_ok_shape hm
          simp only [step, hm]
          constructor
          · intro j hj
            rw [tokenExists, hex j] at hj
            rw [hids]
            exact hInv.exists_bounds j hj
          · intro j hj
            rw [tokenExists, hex j] at hj
            have hne : j ≠ tokenId := by
              intro hEq
              subst hEq
              rw [tokenExists] at hsrc
              simp [hsrc] at hj
            rw [hch j hne]
            exact hInv.ghost_char j hj
          · intro j se hj
            rw [tokenExists, hex j] at hj
            rw [hsp j se]
            exact hInv.ghost_power j se hj
          · intro j hj
            rw [tokenExists, hex j] at hj
            by_cases ht : j = tokenId
            · subst ht
              have hold := hInv.level_eq j hj
              have hmono : (s.characters j).experience / XP_PER_LEVEL
                  ≤ ((s.characters j).experience + amount) / XP_PER_LEVEL :=
                Nat.div_le_div_right (Nat.le_add_right _ _)
              rw [hcht]
              dsimp only
              split
              · rename_i hgt
                dsimp only
              · rename_i hle
                simp only [not_lt] at hle
                dsimp only
                exact le_antisymm (hold ▸ Nat.succ_le_succ hmono) hle
            · rw [hch j ht]
              exact hInv.level_eq j hj
  | advanceSeasonOp =>
      cases hm : advanceSeason s with
      | error e => simpa only [step, hm] using hInv
      | ok s' =>
          obtain ⟨hex, hch, hsp, -, hids⟩ := advanceSeason_ok_shape hm
          simp only [step, hm]
          constructor
          · intro j hj
            rw [tokenExists, hex j] at hj
            rw [hids]
            exact hInv.exists_bounds j hj
          · intro j hj
            rw [tokenExists, hex j] at hj
            rw [hch j]
            exact hInv.ghost_char j hj
          · intro j se hj
            rw [tokenExists, hex j] at hj
            rw [hsp j se]
            exact hInv.ghost_power j se hj
          · intro j hj
            rw [tokenExists, hex j] at hj
            rw [hch j]
            exact hInv.level_eq j hj
  | setSeasonalPowerOp tokenId power =>
      cases hm : setSeasonalPower s tokenId power with
      | error e => simpa only [step, hm] using hInv
      | ok s' =>
          obtain ⟨hsrc, hex, hch, hsp, -, hids⟩ := setSeasonalPower_ok_shape hm
          simp only [step, hm]
          constructor
          · intro j hj
            rw [tokenExists, hex j] at hj
            rw [hids]
            exact hInv.exists_bounds j hj
          · intro j hj
            rw [tokenExists, hex j] at hj
            rw [hch j]
            exact hInv.ghost_char j hj
          · intro j se hj
            rw [tokenExists, hex j] at hj
            rw [hsp j se]
            have hne : j ≠ tokenId := by
              intro hEq
              subst hEq
              rw [tokenExists] at hsrc
              simp [hsrc] at hj
            simp only [hne, false_and, if_false]
            exact hInv.ghost_power j se hj
          · intro j hj
            rw [tokenExists, hex j] at hj
            rw [hch j]
            exact hInv.level_eq j hj

theorem exec_inv_from {s : ContractState} (hInv : Inv s) (ops : List Op) :
    Inv (exec s ops) := by
  induction ops generalizing s with
  | nil => exact hInv
  | cons op ops ih => exact ih (step_inv hInv op)

/-- Every state the contract reaches from deployment satisfies `Inv`. -/
theorem exec_inv (ops : List Op) : Inv (exec initialState ops) :=
  exec_inv_from inv_initialState ops

/-! ## Supporting lemmas -/

theorem umul_ok_of_lt {a b : Nat} (h : a * b < UMAX) : umul a b = .ok (a * b) := by
  simp [umul, h]

/-- A successful `mint` always exists below the id cap. -/
theorem mint_succeeds {s : ContractState} (player : String) (stats : Stats6)
    (uri : String) (hcap : s.tokenIds + 1 < UMAX) :
    ∃ s', mint s player stats uri = .ok (s', s.tokenIds + 1) := by
  unfold mint
  rw [uadd_ok_of_lt hcap]
  exact ⟨_, rfl⟩

/-- A successful `evolveCharacter` always exists when its three requires hold
and the id counter is below the cap. -/
theorem evolve_succeeds {s : ContractState} {tokenId : Nat} (newStats : Stats6)
    (newUri : String) (hEx : tokenExists s tokenId = true)
    (hEv : (s.characters tokenId).evolved = false)
    (hLvl : EVOLUTION_THRESHOLD ≤ (s.characters tokenId).level)
    (hcap : s.tokenIds + 1 < UMAX) :
    ∃ s', evolveCharacter s tokenId newStats newUri = .ok (s', s.tokenIds + 1) := by
  unfold evolveCharacter
  rw [if_neg (by simp [hEx]), if_neg (by simp [hEv]), if_neg (by omega),
    uadd_ok_of_lt hcap]
  exact ⟨_, rfl⟩

/-- A successful `gainExperience` always exists when the token exists and the
experience sum stays below the cap. -/
theorem gain_succeeds {s : ContractState} {tokenId : Nat} (amount : Nat)
    (hEx : tokenExists s tokenId = true)
    (hcap : (s.characters tokenId).experience + amount < UMAX) :
    ∃ s' evs, gainExperience s tokenId amount = .ok (s', evs) := by
  unfold gainExperience
  rw [if_neg (by simp [hEx])]
  dsimp only
  rw [uadd_ok_of_lt hcap]
  exact ⟨_, _, rfl⟩

/-- Accumulating loop of the registry scan, rephrased as filter-then-map. -/
theorem registry_foldl (s : ContractState) (addr : String) :
    ∀ (l : List Nat) (acc : List ProcessedCharacter),
      l.foldl (fun a tokenId =>
        if lowerStr (s.ownerOfTok tokenId) = lowerStr addr then
          a ++ [{ tokenId := tokenId, owner := s.ownerOfTok tokenId
                  character := s.characters tokenId }]
        else a) acc
      = acc ++ (l.filter
          (fun id => lowerStr (s.ownerOfTok id) = lowerStr addr)).map
          (fun id => { tokenId := id, owner := s.ownerOfTok id
                       character := s.characters id }) := by
  intro l
  induction l with
  | nil => intro acc; simp
  | cons x xs ih =>
      intro acc
      by_cases hp : lowerStr (s.ownerOfTok x) = lowerStr addr
      · simp [hp, ih, List.filter_cons]
      · simp [hp, ih, List.filter_cons]

/-- Bounds of one rolled stat: with a clamped ceiling of at least `MIN_STAT`
and a draw in `[0,1)`, the result lies in `[MIN_STAT, maxValue]`. -/
theorem rolledStat_bounds {maxValue : Nat} {r : ℚ} (hmax : MIN_STAT ≤ maxValue)
    (h0 : 0 ≤ r) (h1 : r < 1) :
    (MIN_STAT : ℤ) ≤ rolledStat maxValue r ∧ rolledStat maxValue r ≤ (maxValue : ℤ) := by
  unfold rolledStat
  have hnpos : 0 < (maxValue - MIN_STAT + 1 : Nat) := by omega
  have hncast : (0 : ℚ) < ((maxValue - MIN_STAT + 1 : Nat) : ℚ) := by
    exact_mod_cast hnpos
  have hfl0 : 0 ≤ ⌊r * ((maxValue - MIN_STAT + 1 : Nat) : ℚ)⌋ :=
    Int.floor_nonneg.2 (mul_nonneg h0 hncast.le)
  have hflub : ⌊r * ((maxValue - MIN_STAT + 1 : Nat) : ℚ)⌋
      < ((maxValue - MIN_STAT + 1 : Nat) : ℤ) := by
    rw [Int.floor_lt, Int.cast_natCast]
    calc r * ((maxValue - MIN_STAT + 1 : Nat) : ℚ)
        < 1 * ((maxValue - MIN_STAT + 1 : Nat) : ℚ) :=
          mul_lt_mul_of_pos_right h1 hncast
      _ = _ := one_mul _
  constructor
  · omega
  · omega

/-- A successful `calculatePower` returns exactly
`(sum of the six attributes) * level * (evolved ? 2 : 1) + seasonal bonus`. -/
theorem calculatePower_ok_val {s : ContractState} {tokenId v : Nat}
    (h : calculatePower s tokenId = .ok v) :
    v = ((s.characters tokenId).strength + (s.characters tokenId).dexterity
        + (s.characters tokenId).constitution + (s.characters tokenId).intelligence
        + (s.characters tokenId).wisdom + (s.characters tokenId).charisma)
      * (s.characters tokenId).level
      * (if (s.characters tokenId).evolved then 2 else 1)
      + s.seasonalPower tokenId s.currentSeason := by
  unfold calculatePower at h
  dsimp only at h
  cases h1 : uadd (s.characters tokenId).strength (s.characters tokenId).dexterity with
  | error e => rw [h1] at h; simp at h
  | ok p1 =>
    rw [h1] at h
    dsimp only at h
    obtain ⟨-, hp1⟩ := uadd_ok_iff.mp h1
    subst hp1
    cases h2 : uadd ((s.characters tokenId).strength + (s.characters tokenId).dexterity)
        (s.characters tokenId).constitution with
    | error e => rw [h2] at h; simp at h
    | ok p2 =>
      rw [h2] at h
      dsimp only at h
      obtain ⟨-, hp2⟩ := uadd_ok_iff.mp h2
      subst hp2
      cases h3 : uadd ((s.characters tokenId).strength + (s.characters tokenId).dexterity
          + (s.characters tokenId).constitution) (s.characters tokenId).intelligence with
      | error e => rw [h3] at h; simp at h
      | ok p3 =>
        rw [h3] at h
        dsimp only at h
        obtain ⟨-, hp3⟩ := uadd_ok_iff.mp h3
        subst hp3
        cases h4 : uadd ((s.characters tokenId).strength + (s.characters tokenId).dexterity
            + (s.characters tokenId).constitution + (s.characters tokenId).intelligence)
            (s.characters tokenId).wisdom with
        | error e => rw [h4] at h; simp at h
        | ok p4 =>
          rw [h4] at h
          dsimp only at h
          obtain ⟨-, hp4⟩ := uadd_ok_iff.mp h4
          subst hp4
          cases h5 : uadd ((s.characters tokenId).strength + (s.characters tokenId).dexterity
              + (s.characters tokenId).constitution + (s.characters tokenId).intelligence
              + (s.characters tokenId).wisdom) (s.characters tokenId).charisma with
          | error e => rw [h5] at h; simp at h
          | ok p5 =>
            rw [h5] at h
            dsimp only at h
            obtain ⟨-, hp5⟩ := uadd_ok_iff.mp h5
            subst hp5
            cases h6 : umul ((s.characters tokenId).strength + (s.characters tokenId).dexterity
                + (s.characters tokenId).constitution + (s.characters tokenId).intelligence
                + (s.characters tokenId).wisdom + (s.characters tokenId).charisma)
                (s.characters tokenId).level with
            | error e => rw [h6] at h; simp at h
            | ok p6 =>
              rw [h6] at h
              dsimp only at h
              obtain ⟨-, hp6⟩ := umul_ok_iff.mp h6
              subst hp6
              cases hev : (s.characters tokenId).evolved with
              | false =>
                  rw [hev] at h
                  simp only [Bool.false_eq_true, if_false] at h ⊢
                  obtain ⟨-, hv⟩ := uadd_ok_iff.mp h
                  omega
              | true =>
                  rw [hev] at h
                  simp only [if_true] at h ⊢
                  cases h7 : umul (((s.characters tokenId).strength
                      + (s.characters tokenId).dexterity
                      + (s.characters tokenId).constitution
                      + (s.characters tokenId).intelligence
                      + (s.characters tokenId).wisdom + (s.characters tokenId).charisma)
                      * (s.characters tokenId).level) 2 with
                  | error e => rw [h7] at h; simp at h
                  | ok p7 =>
                    rw [h7] at h
                    dsimp only at h
                    obtain ⟨-, hp7⟩ := umul_ok_iff.mp h7
                    subst hp7
                    obtain ⟨-, hv⟩ := uadd_ok_iff.mp h
                    omega

/-- `calculatePower` on an all-zero slot with a zero stored bonus returns 0. -/
theorem calculatePower_ghost {s : ContractState} {tokenId : Nat}
    (hch : s.characters tokenId = defaultCharacter)
    (hpw : s.seasonalPower tokenId s.currentSeason = 0) :
    calculatePower s tokenId = .ok 0 := by
  unfold calculatePower
  rw [hch, hpw]
  norm_num [defaultCharacter, uadd, umul, UMAX]

/-! ## Claim theorems -/

/-- **C9.** Every successful mint creates a record initialized with
`experience = 0`, `level = 1`, `evolved = false`, `seasonId` equal to the
current season, and the six supplied attributes, and assigns it a fresh token
id that is strictly greater than every previously assigned id (ids are
monotonically assigned and never reused); the first conjunct shows every
reachable contract state satisfies the id-allocation invariant this rests on. -/
theorem mint_initializes_record_and_ids_are_fresh :
    (∀ ops, Inv (exec initialState ops)) ∧
    ∀ (s : ContractState) (player : String) (stats : Stats6) (uri : String),
      Inv s → s.tokenIds + 1 < UMAX →
      ∃ s', mint s player stats uri = .ok (s', s.tokenIds + 1) ∧
        s'.characters (s.tokenIds + 1) =
          { strength := stats.s0, dexterity := stats.s1, constitution := stats.s2
            intelligence := stats.s3, wisdom := stats.s4, charisma := stats.s5
            experience := 0, level := 1, seasonId := s.currentSeason
            evolved := false } ∧
        tokenExists s (s.tokenIds + 1) = false ∧
        (∀ j, tokenExists s j = true → j < s.tokenIds + 1) ∧
        s'.tokenIds = s.tokenIds + 1 := by
  refine ⟨exec_inv, ?_⟩
  intro s player stats uri hInv hcap
  obtain ⟨s', hm⟩ := mint_succeeds player stats uri hcap
  obtain ⟨-, -, hids, -, hch, -, -, -⟩ := mint_ok_shape hm
  refine ⟨s', hm, ?_, ?_, ?_, hids⟩
  · rw [hch]
    simp [mintedCharacter]
  · cases h : tokenExists s (s.tokenIds + 1) with
    | false => rfl
    | true =>
        have := hInv.exists_bounds _ h
        omega
  · intro j hj
    have := hInv.exists_bounds j hj
    omega

/-- Witness for C9 at a concrete input: minting the first token of a fresh
deployment. -/
theorem mint_initializes_record_and_ids_are_fresh_witness :
    Inv initialState ∧ initialState.tokenIds + 1 < UMAX ∧
    (∃ s', mint initialState "0xA" ⟨16, 12, 14, 8, 10, 10⟩ "ipfs://meta"
        = .ok (s', initialState.tokenIds + 1) ∧
      s'.characters (initialState.tokenIds + 1) =
        { strength := 16, dexterity := 12, constitution := 14
          intelligence := 8, wisdom := 10, charisma := 10
          experience := 0, level := 1, seasonId := initialState.currentSeason
          evolved := false } ∧
      tokenExists initialState (initialState.tokenIds + 1) = false ∧
      (∀ j, tokenExists initialState j = true → j < initialState.tokenIds + 1) ∧
      s'.tokenIds = initialState.tokenIds + 1) :=
  ⟨inv_initialState, by norm_num [initialState, UMAX],
    mint_initializes_record_and_ids_are_fresh.2 initialState "0xA"
      ⟨16, 12, 14, 8, 10, 10⟩ "ipfs://meta" inv_initialState
      (by norm_num [initialState, UMAX])⟩

/-- **C1 counterexample.** The claim says the record newly minted by an
evolution has `evolved == false`; on the code it has `evolved == true`
(`DnDCharacterNFT.sol` stores `evolved: true` on the evolved character).
Concretely: mint token 1, grant 4000 XP (level 5), evolve — the fresh
token 2 carries `level = 1`, `experience = 0` and `evolved = true`. -/
theorem evolve_new_record_flag_counterexample :
    ((evolveCharacter
        (exec initialState
          [.mintOp "0xA" ⟨16, 12, 14, 8, 10, 10⟩ "u1", .gainOp 1 4000])
        1 ⟨16, 12, 14, 8, 10, 10⟩ "u2").toOption.map
      (fun p => (p.2, (p.1.characters p.2).level, (p.1.characters p.2).experience,
        (p.1.characters p.2).evolved, (p.1.characters 1).evolved))
      = some (2, 1, 0, true, true)) ∧
    ((evolveCharacter
        (exec initialState
          [.mintOp "0xA" ⟨16, 12, 14, 8, 10, 10⟩ "u1", .gainOp 1 4000])
        1 ⟨16, 12, 14, 8, 10, 10⟩ "u2").toOption.map
      (fun p => (p.1.characters p.2).evolved) ≠ some false) := by
  constructor
  · decide
  · decide

/-- **C1 (amended).** For every record eligible to evolve (existing,
`level ≥ 5`, not yet evolved, id counter below the cap), `evolveCharacter`
produces a brand-new record with `level = 1`, `experience = 0` and — unlike
the claim's wording — `evolved = true`; it marks the source record's
`evolved` flag true; and a second evolve call on the same source fails with
the `"Character already evolved"` validation failure, leaving the state
unchanged. -/
theorem evolve_mints_new_record_and_retires_source :
    ∀ (s : ContractState) (tokenId : Nat) (newStats : Stats6) (newUri : String),
      tokenExists s tokenId = true →
      (s.characters tokenId).evolved = false →
      EVOLUTION_THRESHOLD ≤ (s.characters tokenId).level →
      s.tokenIds + 1 < UMAX →
      ∃ s', evolveCharacter s tokenId newStats newUri = .ok (s', s.tokenIds + 1) ∧
        (s'.characters (s.tokenIds + 1)).level = 1 ∧
        (s'.characters (s.tokenIds + 1)).experience = 0 ∧
        (s'.characters (s.tokenIds + 1)).evolved = true ∧
        (s'.characters tokenId).evolved = true ∧
        (∀ st2 u2, evolveCharacter s' tokenId st2 u2 =
          .error "Character already evolved") ∧
        (∀ st2 u2, step s' (.evolveOp tokenId st2 u2) = s') := by
  intro s tokenId newStats newUri hEx hEv hLvl hcap
  obtain ⟨s', hm⟩ := evolve_succeeds newStats newUri hEx hEv hLvl hcap
  obtain ⟨-, -, -, -, -, -, hex, hch, -, -, -⟩ := evolve_ok_shape hm
  have hEv' : (s'.characters tokenId).evolved = true := by
    rw [hch tokenId]
    by_cases h : tokenId = s.tokenIds + 1
    · simp [h, evolvedCharacter, mintedCharacter]
    · simp [h]
  have hEx' : tokenExists s' tokenId = true := by
    rw [tokenExists, hex tokenId]
    by_cases h : tokenId = s.tokenIds + 1
    · simp [h]
    · simpa [h] using hEx
  have herr : ∀ st2 u2, evolveCharacter s' tokenId st2 u2 =
      .error "Character already evolved" := by
    intro st2 u2
    unfold evolveCharacter
    rw [if_neg (by simp [hEx']), if_pos (by simp [hEv'])]
  refine ⟨s', hm, ?_, ?_, ?_, hEv', herr, ?_⟩
  · rw [hch]
    simp [evolvedCharacter, mintedCharacter]
  · rw [hch]
    simp [evolvedCharacter, mintedCharacter]
  · rw [hch]
    simp [evolvedCharacter, mintedCharacter]
  · intro st2 u2
    simp only [step, herr st2 u2]

/-- Witness for the amended C1 at a concrete input: token 1 of a fresh
deployment, granted 4000 XP (level 5), then evolved. -/
theorem evolve_mints_new_record_and_retires_source_witness :
    tokenExists
        (exec initialState
          [.mintOp "0xA" ⟨16, 12, 14, 8, 10, 10⟩ "u1", .gainOp 1 4000]) 1 = true ∧
    ((exec initialState
          [.mintOp "0xA" ⟨16, 12, 14, 8, 10, 10⟩ "u1", .gainOp 1 4000]).characters 1).evolved
        = false ∧
    EVOLUTION_THRESHOLD ≤
      ((exec initialState
          [.mintOp "0xA" ⟨16, 12, 14, 8, 10, 10⟩ "u1", .gainOp 1 4000]).characters 1).level ∧
    (exec initialState
        [.mintOp "0xA" ⟨16, 12, 14, 8, 10, 10⟩ "u1", .gainOp 1 4000]).tokenIds + 1 < UMAX ∧
    ∃ s', evolveCharacter
        (exec initialState
          [.mintOp "0xA" ⟨16, 12, 14, 8, 10, 10⟩ "u1", .gainOp 1 4000])
        1 ⟨10, 10, 10, 10, 10, 10⟩ "u2"
        = .ok (s',
          (exec initialState
            [.mintOp "0xA" ⟨16, 12, 14, 8, 10, 10⟩ "u1", .gainOp 1 4000]).tokenIds + 1) ∧
      (s'.characters
        ((exec initialState
          [.mintOp "0xA" ⟨16, 12, 14, 8, 10, 10⟩ "u1", .gainOp 1 4000]).tokenIds + 1)).level = 1 ∧
      (s'.characters
        ((exec initialState
          [.mintOp "0xA" ⟨16, 12, 14, 8, 10, 10⟩ "u1", .gainOp 1 4000]).tokenIds + 1)).experience = 0 ∧
      (s'.characters
        ((exec initialState
          [.mintOp "0xA" ⟨16, 12, 14, 8, 10, 10⟩ "u1", .gainOp 1 4000]).tokenIds + 1)).evolved = true ∧
      (s'.characters 1).evolved = true ∧
      (∀ st2 u2, evolveCharacter s' 1 st2 u2 = .error "Character already evolved") ∧
      (∀ st2 u2, step s' (.evolveOp 1 st2 u2) = s') :=
  ⟨by decide, by decide, by decide, by decide,
    evolve_mints_new_record_and_retires_source
      (exec initialState
        [.mintOp "0xA" ⟨16, 12, 14, 8, 10, 10⟩ "u1", .gainOp 1 4000])
      1 ⟨10, 10, 10, 10, 10, 10⟩ "u2"
      (by decide) (by decide) (by decide) (by decide)⟩

/-- **C3.** For every on-chain record (`Inv` carries the reachable-state
level/experience relation) and every amount that keeps experience below the
`uint256` cap, `gainExperience` stores
`newExperience = experience + amount`, stores
`newLevel = newExperience / XP_PER_LEVEL + 1`, emits `LevelUp` exactly when
that level exceeds the old one, is monotone in both fields, leaves the level
unchanged on a zero amount, and takes a fresh level-1 record with 0
experience to level 3 on a grant of 2500. -/
theorem gainExperience_formula_and_monotonicity :
    ∀ (s : ContractState) (tokenId amount : Nat),
      Inv s → tokenExists s tokenId = true →
      (s.characters tokenId).experience + amount < UMAX →
      ∃ s' evs, gainExperience s tokenId amount = .ok (s', evs) ∧
        (s'.characters tokenId).experience
          = (s.characters tokenId).experience + amount ∧
        (s'.characters tokenId).level
          = ((s.characters tokenId).experience + amount) / XP_PER_LEVEL + 1 ∧
        (Event.LevelUp tokenId
            (((s.characters tokenId).experience + amount) / XP_PER_LEVEL + 1) ∈ evs ↔
          (s.characters tokenId).level
            < ((s.characters tokenId).experience + amount) / XP_PER_LEVEL + 1) ∧
        (s.characters tokenId).experience ≤ (s'.characters tokenId).experience ∧
        (s.characters tokenId).level ≤ (s'.characters tokenId).level ∧
        (amount = 0 → (s'.characters tokenId).level = (s.characters tokenId).level) ∧
        ((s.characters tokenId).level = 1 → (s.characters tokenId).experience = 0 →
          amount = 2500 → (s'.characters tokenId).level = 3) := by
  intro s tokenId amount hInv hEx hcap
  obtain ⟨s', evs, hm⟩ := gain_succeeds amount hEx hcap
  obtain ⟨-, -, -, -, hcht, hevs, -, -, -, -⟩ := gain_ok_shape hm
  have hlv := hInv.level_eq tokenId hEx
  have hmono : (s.characters tokenId).experience / XP_PER_LEVEL
      ≤ ((s.characters tokenId).experience + amount) / XP_PER_LEVEL :=
    Nat.div_le_div_right (Nat.le_add_right _ _)
  refine ⟨s', evs, hm, ?_, ?_, ?_, ?_, ?_, ?_, ?_⟩
  · rw [hcht]
    dsimp only
    split <;> rfl
  · rw [hcht]
    dsimp only
    split
    · rfl
    · rename_i hle
      simp only [not_lt] at hle
      exact le_antisymm (hlv ▸ Nat.succ_le_succ hmono) hle
  · rw [hevs]
    dsimp only
    split
    · rename_i hgt
      simp [hgt]
    · rename_i hle
      simp only [not_lt] at hle
      simp only [List.mem_singleton]
      constructor
      · intro h
        exact absurd h (by simp)
      · intro h
        omega
  · rw [hcht]
    dsimp only
    split <;> simp
  · rw [hcht]
    dsimp only
    split
    · rename_i hgt
      dsimp only
      omega
    · rfl
  · intro h0
    subst h0
    rw [hcht]
    dsimp only
    split
    · rename_i hgt
      simp only [Nat.add_zero] at hgt
      omega
    · rfl
  · intro hl1 he0 ham
    subst ham
    rw [hcht]
    dsimp only
    rw [he0] at *
    split
    · rename_i hgt
      simp [XP_PER_LEVEL]
    · rename_i hle
      rw [hl1] at hle
      simp only [not_lt, XP_PER_LEVEL] at hle
      omega

/-- **C6 counterexample.** The claim says power "exactly doubles when the
evolved flag flips from false to true" holding attributes, level and the
seasonal bonus fixed.  With a nonzero seasonal bonus it does not: tokens 1
(not evolved) and 3 (evolved) below share attributes (sum 70), level 1 and
seasonal bonus 5, yet their powers are 75 and 145, and `145 ≠ 2 * 75` —
only the pre-bonus product doubles, the stored bonus is added afterwards. -/
theorem calculatePower_doubling_counterexample :
    ((calculatePower
        (exec initialState
          [.mintOp "0xA" ⟨10, 11, 12, 13, 14, 10⟩ "u1",
            .mintOp "0xA" ⟨10, 11, 12, 13, 14, 10⟩ "u2",
            .gainOp 2 4000,
            .evolveOp 2 ⟨10, 11, 12, 13, 14, 10⟩ "u3",
            .setSeasonalPowerOp 1 5,
            .setSeasonalPowerOp 3 5]) 1).toOption = some 75) ∧
    ((calculatePower
        (exec initialState
          [.mintOp "0xA" ⟨10, 11, 12, 13, 14, 10⟩ "u1",
            .mintOp "0xA" ⟨10, 11, 12, 13, 14, 10⟩ "u2",
            .gainOp 2 4000,
            .evolveOp 2 ⟨10, 11, 12, 13, 14, 10⟩ "u3",
            .setSeasonalPowerOp 1 5,
            .setSeasonalPowerOp 3 5]) 3).toOption = some 145) ∧
    ((exec initialState
        [.mintOp "0xA" ⟨10, 11, 12, 13, 14, 10⟩ "u1",
          .mintOp "0xA" ⟨10, 11, 12, 13, 14, 10⟩ "u2",
          .gainOp 2 4000,
          .evolveOp 2 ⟨10, 11, 12, 13, 14, 10⟩ "u3",
          .setSeasonalPowerOp 1 5,
          .setSeasonalPowerOp 3 5]).characters 1
      = { (exec initialState
          [.mintOp "0xA" ⟨10, 11, 12, 13, 14, 10⟩ "u1",
            .mintOp "0xA" ⟨10, 11, 12, 13, 14, 10⟩ "u2",
            .gainOp 2 4000,
            .evolveOp 2 ⟨10, 11, 12, 13, 14, 10⟩ "u3",
            .setSeasonalPowerOp 1 5,
            .setSeasonalPowerOp 3 5]).characters 3 with
          evolved := false, seasonId := 1 }) ∧
    ((exec initialState
        [.mintOp "0xA" ⟨10, 11, 12, 13, 14, 10⟩ "u1",
          .mintOp "0xA" ⟨10, 11, 12, 13, 14, 10⟩ "u2",
          .gainOp 2 4000,
          .evolveOp 2 ⟨10, 11, 12, 13, 14, 10⟩ "u3",
          .setSeasonalPowerOp 1 5,
          .setSeasonalPowerOp 3 5]).characters 1).evolved = false ∧
    ((exec initialState
        [.mintOp "0xA" ⟨10, 11, 12, 13, 14, 10⟩ "u1",
          .mintOp "0xA" ⟨10, 11, 12, 13, 14, 10⟩ "u2",
          .gainOp 2 4000,
          .evolveOp 2 ⟨10, 11, 12, 13, 14, 10⟩ "u3",
          .setSeasonalPowerOp 1 5,
          .setSeasonalPowerOp 3 5]).characters 3).evolved = true ∧
    ((exec initialState
        [.mintOp "0xA" ⟨10, 11, 12, 13, 14, 10⟩ "u1",
          .mintOp "0xA" ⟨10, 11, 12, 13, 14, 10⟩ "u2",
          .gainOp 2 4000,
          .evolveOp 2 ⟨10, 11, 12, 13, 14, 10⟩ "u3",
          .setSeasonalPowerOp 1 5,
          .setSeasonalPowerOp 3 5]).seasonalPower 1 1 = 5) ∧
    ((exec initialState
        [.mintOp "0xA" ⟨10, 11, 12, 13, 14, 10⟩ "u1",
          .mintOp "0xA" ⟨10, 11, 12, 13, 14, 10⟩ "u2",
          .gainOp 2 4000,
          .evolveOp 2 ⟨10, 11, 12, 13, 14, 10⟩ "u3",
          .setSeasonalPowerOp 1 5,
          .setSeasonalPowerOp 3 5]).seasonalPower 3 1 = 5) ∧
    (145 : Nat) ≠ 2 * 75 := by
  refine ⟨by decide, by decide, by decide, by decide, by decide, by decide,
    by decide, by decide⟩

/-- **C6 (amended).** Effective power equals
`(sum of the six attributes) * level * (2 if evolved else 1) + seasonal bonus`
(under the `uint256` no-overflow side conditions); it is monotonically
non-decreasing in level; when the evolved flag flips from false to true,
holding attributes, level and seasonal bonus fixed, the pre-bonus product
doubles — so total power doubles exactly when the seasonal bonus is 0 (its
default); with a nonzero stored bonus the bonus is added once after the
doubling. -/
theorem calculatePower_formula_monotone_and_doubling :
    (∀ (s : ContractState) (tokenId : Nat),
      (s.characters tokenId).strength + (s.characters tokenId).dexterity
        + (s.characters tokenId).constitution + (s.characters tokenId).intelligence
        + (s.characters tokenId).wisdom + (s.characters tokenId).charisma < UMAX →
      ((s.characters tokenId).strength + (s.characters tokenId).dexterity
        + (s.characters tokenId).constitution + (s.characters tokenId).intelligence
        + (s.characters tokenId).wisdom + (s.characters tokenId).charisma)
        * (s.characters tokenId).level
        * (if (s.characters tokenId).evolved then 2 else 1)
        + s.seasonalPower tokenId s.currentSeason < UMAX →
      calculatePower s tokenId =
        .ok (((s.characters tokenId).strength + (s.characters tokenId).dexterity
          + (s.characters tokenId).constitution + (s.characters tokenId).intelligence
          + (s.characters tokenId).wisdom + (s.characters tokenId).charisma)
          * (s.characters tokenId).level
          * (if (s.characters tokenId).evolved then 2 else 1)
          + s.seasonalPower tokenId s.currentSeason)) ∧
    (∀ (s₁ s₂ : ContractState) (id₁ id₂ v₁ v₂ : Nat),
      (s₁.characters id₁).strength = (s₂.characters id₂).strength →
      (s₁.characters id₁).dexterity = (s₂.characters id₂).dexterity →
      (s₁.characters id₁).constitution = (s₂.characters id₂).constitution →
      (s₁.characters id₁).intelligence = (s₂.characters id₂).intelligence →
      (s₁.characters id₁).wisdom = (s₂.characters id₂).wisdom →
      (s₁.characters id₁).charisma = (s₂.characters id₂).charisma →
      (s₁.characters id₁).evolved = (s₂.characters id₂).evolved →
      s₁.seasonalPower id₁ s₁.currentSeason = s₂.seasonalPower id₂ s₂.currentSeason →
      (s₁.characters id₁).level ≤ (s₂.characters id₂).level →
      calculatePower s₁ id₁ = .ok v₁ → calculatePower s₂ id₂ = .ok v₂ →
      v₁ ≤ v₂) ∧
    (∀ (s₁ s₂ : ContractState) (id₁ id₂ v₁ v₂ : Nat),
      (s₁.characters id₁).strength = (s₂.characters id₂).strength →
      (s₁.characters id₁).dexterity = (s₂.characters id₂).dexterity →
      (s₁.characters id₁).constitution = (s₂.characters id₂).constitution →
      (s₁.characters id₁).intelligence = (s₂.characters id₂).intelligence →
      (s₁.characters id₁).wisdom = (s₂.characters id₂).wisdom →
      (s₁.characters id₁).charisma = (s₂.characters id₂).charisma →
      (s₁.characters id₁).level = (s₂.characters id₂).level →
      s₁.seasonalPower id₁ s₁.currentSeason = s₂.seasonalPower id₂ s₂.currentSeason →
      (s₁.characters id₁).evolved = false → (s₂.characters id₂).evolved = true →
      calculatePower s₁ id₁ = .ok v₁ → calculatePower s₂ id₂ = .ok v₂ →
      v₂ = 2 * (v₁ - s₁.seasonalPower id₁ s₁.currentSeason)
        + s₂.seasonalPower id₂ s₂.currentSeason) ∧
    (∀ (s₁ s₂ : ContractState) (id₁ id₂ v₁ v₂ : Nat),
      (s₁.characters id₁).strength = (s₂.characters id₂).strength →
      (s₁.characters id₁).dexterity = (s₂.characters id₂).dexterity →
      (s₁.characters id₁).constitution = (s₂.characters id₂).constitution →
      (s₁.characters id₁).intelligence = (s₂.characters id₂).intelligence →
      (s₁.characters id₁).wisdom = (s₂.characters id₂).wisdom →
      (s₁.characters id₁).charisma = (s₂.characters id₂).charisma →
      (s₁.characters id₁).level = (s₂.characters id₂).level →
      s₁.seasonalPower id₁ s₁.currentSeason = 0 →
      s₂.seasonalPower id₂ s₂.currentSeason = 0 →
      (s₁.characters id₁).evolved = false → (s₂.characters id₂).evolved = true →
      calculatePower s₁ id₁ = .ok v₁ → calculatePower s₂ id₂ = .ok v₂ →
      v₂ = 2 * v₁) := by
  refine ⟨?_, ?_, ?_, ?_⟩
  · intro s tokenId hsum hfin
    unfold calculatePower
    dsimp only
    rw [uadd_ok_of_lt (by omega)]
    dsimp only
    rw [uadd_ok_of_lt (by omega)]
    dsimp only
    rw [uadd_ok_of_lt (by omega)]
    dsimp only
    rw [uadd_ok_of_lt (by omega)]
    dsimp only
    rw [uadd_ok_of_lt (by omega)]
    dsimp only
    cases hev : (s.characters tokenId).evolved with
    | false =>
        rw [hev] at hfin
        simp only [Bool.false_eq_true, if_false, mul_one] at hfin
        simp only [Bool.false_eq_true, if_false, mul_one]
        rw [umul_ok_of_lt (by omega)]
        dsimp only
        rw [uadd_ok_of_lt (by omega)]
    | true =>
        rw [hev] at hfin
        simp only [if_true] at hfin
        simp only [if_true]
        have hml : ((s.characters tokenId).strength + (s.characters tokenId).dexterity
            + (s.characters tokenId).constitution + (s.characters tokenId).intelligence
            + (s.characters tokenId).wisdom + (s.characters tokenId).charisma)
            * (s.characters tokenId).level * 2 < UMAX := by omega
        have hml1 : ((s.characters tokenId).strength + (s.characters tokenId).dexterity
            + (s.characters tokenId).constitution + (s.characters tokenId).intelligence
            + (s.characters tokenId).wisdom + (s.characters tokenId).charisma)
            * (s.characters tokenId).level < UMAX := by omega
        rw [umul_ok_of_lt hml1]
        dsimp only
        rw [umul_ok_of_lt hml]
        dsimp only
        rw [uadd_ok_of_lt (by omega)]
  · intro s₁ s₂ id₁ id₂ v₁ v₂ h1 h2 h3 h4 h5 h6 hev hb hl hc₁ hc₂
    have hv₁ := calculatePower_ok_val hc₁
    have hv₂ := calculatePower_ok_val hc₂
    subst hv₁
    subst hv₂
    rw [h1, h2, h3, h4, h5, h6, hev, hb]
    gcongr
  · intro s₁ s₂ id₁ id₂ v₁ v₂ h1 h2 h3 h4 h5 h6 hl hb hev₁ hev₂ hc₁ hc₂
    have hv₁ := calculatePower_ok_val hc₁
    have hv₂ := calculatePower_ok_val hc₂
    subst hv₁
    subst hv₂
    rw [h1, h2, h3, h4, h5, h6, hl, hev₁, hev₂]
    simp only [Bool.false_eq_true, if_false, if_true, mul_one]
    omega
  · intro s₁ s₂ id₁ id₂ v₁ v₂ h1 h2 h3 h4 h5 h6 hl hb₁ hb₂ hev₁ hev₂ hc₁ hc₂
    have hv₁ := calculatePower_ok_val hc₁
    have hv₂ := calculatePower_ok_val hc₂
    subst hv₁
    subst hv₂
    rw [h1, h2, h3, h4, h5, h6, hl, hev₁, hev₂, hb₁, hb₂]
    simp only [Bool.false_eq_true, if_false, if_true, mul_one]
    omega

/-- Witness for the amended C6 at concrete inputs: tokens 1 (not evolved)
and 3 (evolved) of a concrete run share attributes (sum 70) and level 1 and
both carry the default seasonal bonus 0; the doubling conjunct of the claim
theorem yields `140 = 2 * 70`. -/
theorem calculatePower_formula_monotone_and_doubling_witness :
    (calculatePower
        (exec initialState
          [.mintOp "0xA" ⟨10, 11, 12, 13, 14, 10⟩ "u1",
            .mintOp "0xA" ⟨10, 11, 12, 13, 14, 10⟩ "u2",
            .gainOp 2 4000,
            .evolveOp 2 ⟨10, 11, 12, 13, 14, 10⟩ "u3"]) 1 = .ok 70) ∧
    (calculatePower
        (exec initialState
          [.mintOp "0xA" ⟨10, 11, 12, 13, 14, 10⟩ "u1",
            .mintOp "0xA" ⟨10, 11, 12, 13, 14, 10⟩ "u2",
            .gainOp 2 4000,
            .evolveOp 2 ⟨10, 11, 12, 13, 14, 10⟩ "u3"]) 3 = .ok 140) ∧
    ((exec initialState
        [.mintOp "0xA" ⟨10, 11, 12, 13, 14, 10⟩ "u1",
          .mintOp "0xA" ⟨10, 11, 12, 13, 14, 10⟩ "u2",
          .gainOp 2 4000,
          .evolveOp 2 ⟨10, 11, 12, 13, 14, 10⟩ "u3"]).characters 1).evolved = false ∧
    ((exec initialState
        [.mintOp "0xA" ⟨10, 11, 12, 13, 14, 10⟩ "u1",
          .mintOp "0xA" ⟨10, 11, 12, 13, 14, 10⟩ "u2",
          .gainOp 2 4000,
          .evolveOp 2 ⟨10, 11, 12, 13, 14, 10⟩ "u3"]).characters 3).evolved = true ∧
    ((exec initialState
        [.mintOp "0xA" ⟨10, 11, 12, 13, 14, 10⟩ "u1",
          .mintOp "0xA" ⟨10, 11, 12, 13, 14, 10⟩ "u2",
          .gainOp 2 4000,
          .evolveOp 2 ⟨10, 11, 12, 13, 14, 10⟩ "u3"]).seasonalPower 1
        (exec initialState
          [.mintOp "0xA" ⟨10, 11, 12, 13, 14, 10⟩ "u1",
            .mintOp "0xA" ⟨10, 11, 12, 13, 14, 10⟩ "u2",
            .gainOp 2 4000,
            .evolveOp 2 ⟨10, 11, 12, 13, 14, 10⟩ "u3"]).currentSeason = 0) ∧
    ((exec initialState
        [.mintOp "0xA" ⟨10, 11, 12, 13, 14, 10⟩ "u1",
          .mintOp "0xA" ⟨10, 11, 12, 13, 14, 10⟩ "u2",
          .gainOp 2 4000,
          .evolveOp 2 ⟨10, 11, 12, 13, 14, 10⟩ "u3"]).seasonalPower 3
        (exec initialState
          [.mintOp "0xA" ⟨10, 11, 12, 13, 14, 10⟩ "u1",
            .mintOp "0xA" ⟨10, 11, 12, 13, 14, 10⟩ "u2",
            .gainOp 2 4000,
            .evolveOp 2 ⟨10, 11, 12, 13, 14, 10⟩ "u3"]).currentSeason = 0) ∧
    (140 : Nat) = 2 * 70 :=
  ⟨by rfl, by rfl, by decide, by decide, by decide, by decide,
    calculatePower_formula_monotone_and_doubling.2.2.2
      (exec initialState
        [.mintOp "0xA" ⟨10, 11, 12, 13, 14, 10⟩ "u1",
          .mintOp "0xA" ⟨10, 11, 12, 13, 14, 10⟩ "u2",
          .gainOp 2 4000,
          .evolveOp 2 ⟨10, 11, 12, 13, 14, 10⟩ "u3"])
      (exec initialState
        [.mintOp "0xA" ⟨10, 11, 12, 13, 14, 10⟩ "u1",
          .mintOp "0xA" ⟨10, 11, 12, 13, 14, 10⟩ "u2",
          .gainOp 2 4000,
          .evolveOp 2 ⟨10, 11, 12, 13, 14, 10⟩ "u3"])
      1 3 70 140 (by decide) (by decide) (by decide) (by decide) (by decide)
      (by decide) (by decide) (by decide) (by decide) (by decide) (by decide)
      (by rfl) (by rfl)⟩

/-- **C10.** For every token id never minted in any reachable state,
`calculatePower` does not fail: it performs no existence check and returns
exactly the stored seasonal bonus for that id in the current season, which is
0 because `setSeasonalPower` requires the token to exist — in contrast to
`getCharacter` (and `setSeasonalPower` itself), which fail for a nonexistent
token id. -/
theorem calculatePower_nonexistent_token :
    ∀ (ops : List Op) (tokenId : Nat),
      tokenExists (exec initialState ops) tokenId = false →
      calculatePower (exec initialState ops) tokenId
          = .ok ((exec initialState ops).seasonalPower tokenId
              (exec initialState ops).currentSeason) ∧
      (exec initialState ops).seasonalPower tokenId
          (exec initialState ops).currentSeason = 0 ∧
      calculatePower (exec initialState ops) tokenId = .ok 0 ∧
      getCharacter (exec initialState ops) tokenId
          = .error "Character does not exist" ∧
      (∀ power, setSeasonalPower (exec initialState ops) tokenId power
          = .error "Character does not exist") := by
  intro ops tokenId hne
  have hInv := exec_inv ops
  have hch := hInv.ghost_char tokenId hne
  have hpw := hInv.ghost_power tokenId (exec initialState ops).currentSeason hne
  have hcp := calculatePower_ghost hch hpw
  refine ⟨?_, hpw, hcp, ?_, ?_⟩
  · rw [hpw]
    exact hcp
  · simp [getCharacter, hne]
  · intro power
    simp [setSeasonalPower, hne]

/-- Witness for C10 at a concrete input: token 1 of a fresh deployment on
which only an unrelated mint ran (token 2 was never minted). -/
theorem calculatePower_nonexistent_token_witness :
    tokenExists (exec initialState [.mintOp "0xA" ⟨16, 12, 14, 8, 10, 10⟩ "u1"]) 2
        = false ∧
    calculatePower (exec initialState [.mintOp "0xA" ⟨16, 12, 14, 8, 10, 10⟩ "u1"]) 2
        = .ok ((exec initialState
            [.mintOp "0xA" ⟨16, 12, 14, 8, 10, 10⟩ "u1"]).seasonalPower 2
            (exec initialState
              [.mintOp "0xA" ⟨16, 12, 14, 8, 10, 10⟩ "u1"]).currentSeason) ∧
    (exec initialState [.mintOp "0xA" ⟨16, 12, 14, 8, 10, 10⟩ "u1"]).seasonalPower 2
        (exec initialState
          [.mintOp "0xA" ⟨16, 12, 14, 8, 10, 10⟩ "u1"]).currentSeason = 0 ∧
    calculatePower (exec initialState [.mintOp "0xA" ⟨16, 12, 14, 8, 10, 10⟩ "u1"]) 2
        = .ok 0 ∧
    getCharacter (exec initialState [.mintOp "0xA" ⟨16, 12, 14, 8, 10, 10⟩ "u1"]) 2
        = .error "Character does not exist" ∧
    (∀ power, setSeasonalPower
        (exec initialState [.mintOp "0xA" ⟨16, 12, 14, 8, 10, 10⟩ "u1"]) 2 power
        = .error "Character does not exist") :=
  ⟨by decide,
    (calculatePower_nonexistent_token
      [.mintOp "0xA" ⟨16, 12, 14, 8, 10, 10⟩ "u1"] 2 (by decide)).1,
    (calculatePower_nonexistent_token
      [.mintOp "0xA" ⟨16, 12, 14, 8, 10, 10⟩ "u1"] 2 (by decide)).2.1,
    (calculatePower_nonexistent_token
      [.mintOp "0xA" ⟨16, 12, 14, 8, 10, 10⟩ "u1"] 2 (by decide)).2.2.1,
    (calculatePower_nonexistent_token
      [.mintOp "0xA" ⟨16, 12, 14, 8, 10, 10⟩ "u1"] 2 (by decide)).2.2.2.1,
    (calculatePower_nonexistent_token
      [.mintOp "0xA" ⟨16, 12, 14, 8, 10, 10⟩ "u1"] 2 (by decide)).2.2.2.2⟩

/-- Witness for C3 at a concrete input: granting 2500 XP to the first minted
token of a fresh deployment. -/
theorem gainExperience_formula_and_monotonicity_witness :
    Inv (exec initialState [.mintOp "0xA" ⟨16, 12, 14, 8, 10, 10⟩ "u1"]) ∧
    tokenExists (exec initialState [.mintOp "0xA" ⟨16, 12, 14, 8, 10, 10⟩ "u1"]) 1
        = true ∧
    ((exec initialState
        [.mintOp "0xA" ⟨16, 12, 14, 8, 10, 10⟩ "u1"]).characters 1).experience + 2500
        < UMAX ∧
    ∃ s' evs, gainExperience
        (exec initialState [.mintOp "0xA" ⟨16, 12, 14, 8, 10, 10⟩ "u1"]) 1 2500
        = .ok (s', evs) ∧
      (s'.characters 1).experience
        = ((exec initialState
            [.mintOp "0xA" ⟨16, 12, 14, 8, 10, 10⟩ "u1"]).characters 1).experience + 2500 ∧
      (s'.characters 1).level
        = (((exec initialState
            [.mintOp "0xA" ⟨16, 12, 14, 8, 10, 10⟩ "u1"]).characters 1).experience + 2500)
            / XP_PER_LEVEL + 1 ∧
      (Event.LevelUp 1
          ((((exec initialState
            [.mintOp "0xA" ⟨16, 12, 14, 8, 10, 10⟩ "u1"]).characters 1).experience + 2500)
            / XP_PER_LEVEL + 1) ∈ evs ↔
        ((exec initialState
            [.mintOp "0xA" ⟨16, 12, 14, 8, 10, 10⟩ "u1"]).characters 1).level
          < (((exec initialState
            [.mintOp "0xA" ⟨16, 12, 14, 8, 10, 10⟩ "u1"]).characters 1).experience + 2500)
            / XP_PER_LEVEL + 1) ∧
      ((exec initialState
          [.mintOp "0xA" ⟨16, 12, 14, 8, 10, 10⟩ "u1"]).characters 1).experience
        ≤ (s'.characters 1).experience ∧
      ((exec initialState
          [.mintOp "0xA" ⟨16, 12, 14, 8, 10, 10⟩ "u1"]).characters 1).level
        ≤ (s'.characters 1).level ∧
      ((2500 : Nat) = 0 → (s'.characters 1).level
        = ((exec initialState
            [.mintOp "0xA" ⟨16, 12, 14, 8, 10, 10⟩ "u1"]).characters 1).level) ∧
      (((exec initialState
          [.mintOp "0xA" ⟨16, 12, 14, 8, 10, 10⟩ "u1"]).characters 1).level = 1 →
        ((exec initialState
          [.mintOp "0xA" ⟨16, 12, 14, 8, 10, 10⟩ "u1"]).characters 1).experience = 0 →
        (2500 : Nat) = 2500 → (s'.characters 1).level = 3) :=
  ⟨exec_inv [.mintOp "0xA" ⟨16, 12, 14, 8, 10, 10⟩ "u1"], by decide, by decide,
    gainExperience_formula_and_monotonicity
      (exec initialState [.mintOp "0xA" ⟨16, 12, 14, 8, 10, 10⟩ "u1"]) 1 2500
      (exec_inv [.mintOp "0xA" ⟨16, 12, 14, 8, 10, 10⟩ "u1"]) (by decide) (by decide)⟩

/-- **C4.** For every ceiling table (first conjunct, covering arbitrary —
also misconfigured — ceilings) and for every archetype's configured table
(second conjunct), and for every draw of the random source (six `Math.random`
values in `[0,1)`), the stat roll returns, for each of the six attributes, an
integer between 10 and the effective ceiling `max(configuredCeiling, 10)`,
inclusive on both ends: a ceiling configured below 10 is clamped up to 10, so
no rolled value is ever below 10. -/
theorem generateBaseStats_in_bounds :
    (∀ (tbl : StatName → Nat) (draws : StatName → ℚ),
      (∀ st, 0 ≤ draws st ∧ draws st < 1) →
      ∀ st, (MIN_STAT : ℤ) ≤ generateBaseStatsTable tbl draws st ∧
        generateBaseStatsTable tbl draws st ≤ ((max (tbl st) MIN_STAT : Nat) : ℤ) ∧
        clampedMax tbl st = max (tbl st) MIN_STAT ∧
        MIN_STAT ≤ clampedMax tbl st) ∧
    (∀ (cls : CharacterClass) (draws : StatName → ℚ),
      (∀ st, 0 ≤ draws st ∧ draws st < 1) →
      ∀ st, (MIN_STAT : ℤ) ≤ generateBaseStats cls draws st ∧
        generateBaseStats cls draws st ≤ ((max (maxStatsFor cls st) MIN_STAT : Nat) : ℤ)) := by
  have main : ∀ (tbl : StatName → Nat) (draws : StatName → ℚ),
      (∀ st, 0 ≤ draws st ∧ draws st < 1) →
      ∀ st, (MIN_STAT : ℤ) ≤ generateBaseStatsTable tbl draws st ∧
        generateBaseStatsTable tbl draws st ≤ ((max (tbl st) MIN_STAT : Nat) : ℤ) := by
    intro tbl draws hdraws st
    have hmax : MIN_STAT ≤ clampedMax tbl st := le_max_right _ _
    have hb := rolledStat_bounds hmax (hdraws st).1 (hdraws st).2
    exact ⟨hb.1, hb.2⟩
  refine ⟨fun tbl draws hdraws st => ?_, fun cls draws hdraws st =>
    main (maxStatsFor cls) draws hdraws st⟩
  exact ⟨(main tbl draws hdraws st).1, (main tbl draws hdraws st).2,
    rfl, le_max_right _ _⟩

/-- Witness for C4 at a concrete input: a deliberately misconfigured table
with every ceiling 3 (below the floor) and the constant draw 1/2; and the
warrior table with the same draw. -/
theorem generateBaseStats_in_bounds_witness :
    (∀ st : StatName, 0 ≤ (fun _ : StatName => (1 : ℚ) / 2) st ∧
      (fun _ : StatName => (1 : ℚ) / 2) st < 1) ∧
    ((MIN_STAT : ℤ) ≤ generateBaseStatsTable (fun _ => 3)
        (fun _ => (1 : ℚ) / 2) .strength ∧
      generateBaseStatsTable (fun _ => 3) (fun _ => (1 : ℚ) / 2) .strength
        ≤ ((max 3 MIN_STAT : Nat) : ℤ) ∧
      clampedMax (fun _ => 3) .strength = max 3 MIN_STAT ∧
      MIN_STAT ≤ clampedMax (fun _ => 3) .strength) ∧
    ((MIN_STAT : ℤ) ≤ generateBaseStats .warrior (fun _ => (1 : ℚ) / 2) .strength ∧
      generateBaseStats .warrior (fun _ => (1 : ℚ) / 2) .strength
        ≤ ((max (maxStatsFor .warrior .strength) MIN_STAT : Nat) : ℤ)) :=
  ⟨fun _ => ⟨by norm_num, by norm_num⟩,
    generateBaseStats_in_bounds.1 (fun _ => 3) (fun _ => (1 : ℚ) / 2)
      (fun _ => ⟨by norm_num, by norm_num⟩) .strength,
    generateBaseStats_in_bounds.2 .warrior (fun _ => (1 : ℚ) / 2)
      (fun _ => ⟨by norm_num, by norm_num⟩) .strength⟩

/-- **C2 counterexample.** The claim says the attribute roll is stage 1,
before narrative and portrait generation.  In `createCharacter` the roll
(`generateBaseStats`, step 4 of the source) runs after narrative generation,
portrait generation and the image upload: on a fully successful run the
executed stage list starts with `narrative` and has `rollStats` at index 3,
not 0. -/
theorem createCharacter_stage_order_counterexample :
    ((createCharacter
        ⟨.ok ⟨"N", "B", "A", none⟩, .ok [0], .ok "h1", fun _ => 0,
          .ok "h2", .ok ⟨"tx", "lnk"⟩⟩ "0xA" .warrior).2
      = [.narrative, .portrait, .publishImage, .rollStats, .metadataBuild,
          .publishMetadata, .mintStage]) ∧
    ((createCharacter
        ⟨.ok ⟨"N", "B", "A", none⟩, .ok [0], .ok "h1", fun _ => 0,
          .ok "h2", .ok ⟨"tx", "lnk"⟩⟩ "0xA" .warrior).2.head? = some .narrative) ∧
    ((createCharacter
        ⟨.ok ⟨"N", "B", "A", none⟩, .ok [0], .ok "h1", fun _ => 0,
          .ok "h2", .ok ⟨"tx", "lnk"⟩⟩ "0xA" .warrior).2.head? ≠ some .rollStats) ∧
    ((createCharacter
        ⟨.ok ⟨"N", "B", "A", none⟩, .ok [0], .ok "h1", fun _ => 0,
          .ok "h2", .ok ⟨"tx", "lnk"⟩⟩ "0xA" .warrior).2.indexOf .rollStats ≠ 0) := by
  refine ⟨by decide, by decide, by decide, by decide⟩

/-- **C2 (amended).** The creation saga executes its stages in the fixed
source order: generate narrative, generate portrait, publish the image, roll
attributes, build metadata, publish metadata, mint — the attribute roll is
the fourth stage, after narrative, portrait and image publication, not the
first. -/
theorem createCharacter_stage_order :
    ∀ (env : SagaEnv) (playerAddress : String) (cls : CharacterClass)
      (d : CharacterDetails) (img : List Nat) (h1 h2 : String) (r : MintReceipt),
      env.storyRaw = .ok d → env.imageRaw = .ok img → env.uploadFileRaw = .ok h1 →
      env.uploadMetadataRaw = .ok h2 → env.mintRaw = .ok r →
      (createCharacter env playerAddress cls).2 =
        [.narrative, .portrait, .publishImage, .rollStats, .metadataBuild,
          .publishMetadata, .mintStage] := by
  intro env p cls d img h1 h2 r hs hi hf hm hr
  unfold createCharacter
  rw [hs, hi, hf, hm, hr]
  simp [generateCharacterStory, generateCharacterImage, uploadFile, uploadMetadata]

/-- Witness for the amended C2 at a concrete fully-successful environment. -/
theorem createCharacter_stage_order_witness :
    (SagaEnv.storyRaw
        ⟨.ok ⟨"N", "B", "A", none⟩, .ok [0], .ok "h1", fun _ => 0,
          .ok "h2", .ok ⟨"tx", "lnk"⟩⟩ = .ok ⟨"N", "B", "A", none⟩) ∧
    (SagaEnv.imageRaw
        ⟨.ok ⟨"N", "B", "A", none⟩, .ok [0], .ok "h1", fun _ => 0,
          .ok "h2", .ok ⟨"tx", "lnk"⟩⟩ = .ok [0]) ∧
    (SagaEnv.uploadFileRaw
        ⟨.ok ⟨"N", "B", "A", none⟩, .ok [0], .ok "h1", fun _ => 0,
          .ok "h2", .ok ⟨"tx", "lnk"⟩⟩ = .ok "h1") ∧
    (SagaEnv.uploadMetadataRaw
        ⟨.ok ⟨"N", "B", "A", none⟩, .ok [0], .ok "h1", fun _ => 0,
          .ok "h2", .ok ⟨"tx", "lnk"⟩⟩ = .ok "h2") ∧
    (SagaEnv.mintRaw
        ⟨.ok ⟨"N", "B", "A", none⟩, .ok [0], .ok "h1", fun _ => 0,
          .ok "h2", .ok ⟨"tx", "lnk"⟩⟩ = .ok ⟨"tx", "lnk"⟩) ∧
    (createCharacter
        ⟨.ok ⟨"N", "B", "A", none⟩, .ok [0], .ok "h1", fun _ => 0,
          .ok "h2", .ok ⟨"tx", "lnk"⟩⟩ "0xA" .warrior).2 =
      [.narrative, .portrait, .publishImage, .rollStats, .metadataBuild,
        .publishMetadata, .mintStage] :=
  ⟨rfl, rfl, rfl, rfl, rfl,
    createCharacter_stage_order
      ⟨.ok ⟨"N", "B", "A", none⟩, .ok [0], .ok "h1", fun _ => 0,
        .ok "h2", .ok ⟨"tx", "lnk"⟩⟩ "0xA" .warrior
      ⟨"N", "B", "A", none⟩ [0] "h1" "h2" ⟨"tx", "lnk"⟩ rfl rfl rfl rfl rfl⟩

/-- **C5.** If portrait (image) generation fails, the creation saga aborts
with the `AIServiceError` of code `IMAGE_GENERATION_FAILED` (the
`GenerationFailure` of the portrait stage) and the executed stages stop at
`portrait`: no image or metadata is published and no mint invocation is ever
issued for that creation attempt. -/
theorem portrait_failure_aborts_saga_before_mint :
    ∀ (env : SagaEnv) (playerAddress : String) (cls : CharacterClass)
      (d : CharacterDetails) (msg : String),
      env.storyRaw = .ok d → env.imageRaw = .error msg →
      createCharacter env playerAddress cls =
        (.error { message := "Failed to generate image: " ++ msg
                  code := some "IMAGE_GENERATION_FAILED" },
          [.narrative, .portrait]) ∧
      Stage.mintStage ∉ (createCharacter env playerAddress cls).2 ∧
      Stage.publishImage ∉ (createCharacter env playerAddress cls).2 ∧
      Stage.publishMetadata ∉ (createCharacter env playerAddress cls).2 := by
  intro env p cls d msg hs hi
  have h : createCharacter env p cls =
      (.error { message := "Failed to generate image: " ++ msg
                code := some "IMAGE_GENERATION_FAILED" },
        [.narrative, .portrait]) := by
    unfold createCharacter
    rw [hs, hi]
    simp [generateCharacterStory, generateCharacterImage]
  refine ⟨h, ?_, ?_, ?_⟩ <;> rw [h] <;> simp

/-- Witness for C5 at a concrete environment whose portrait call fails. -/
theorem portrait_failure_aborts_saga_before_mint_witness :
    (SagaEnv.storyRaw
        ⟨.ok ⟨"N", "B", "A", none⟩, .error "boom", .ok "h1", fun _ => 0,
          .ok "h2", .ok ⟨"tx", "lnk"⟩⟩ = .ok ⟨"N", "B", "A", none⟩) ∧
    (SagaEnv.imageRaw
        ⟨.ok ⟨"N", "B", "A", none⟩, .error "boom", .ok "h1", fun _ => 0,
          .ok "h2", .ok ⟨"tx", "lnk"⟩⟩ = .error "boom") ∧
    (createCharacter
        ⟨.ok ⟨"N", "B", "A", none⟩, .error "boom", .ok "h1", fun _ => 0,
          .ok "h2", .ok ⟨"tx", "lnk"⟩⟩ "0xA" .warrior =
      (.error { message := "Failed to generate image: " ++ "boom"
                code := some "IMAGE_GENERATION_FAILED" },
        [.narrative, .portrait]) ∧
    Stage.mintStage ∉ (createCharacter
        ⟨.ok ⟨"N", "B", "A", none⟩, .error "boom", .ok "h1", fun _ => 0,
          .ok "h2", .ok ⟨"tx", "lnk"⟩⟩ "0xA" .warrior).2 ∧
    Stage.publishImage ∉ (createCharacter
        ⟨.ok ⟨"N", "B", "A", none⟩, .error "boom", .ok "h1", fun _ => 0,
          .ok "h2", .ok ⟨"tx", "lnk"⟩⟩ "0xA" .warrior).2 ∧
    Stage.publishMetadata ∉ (createCharacter
        ⟨.ok ⟨"N", "B", "A", none⟩, .error "boom", .ok "h1", fun _ => 0,
          .ok "h2", .ok ⟨"tx", "lnk"⟩⟩ "0xA" .warrior).2) :=
  ⟨rfl, rfl,
    portrait_failure_aborts_saga_before_mint
      ⟨.ok ⟨"N", "B", "A", none⟩, .error "boom", .ok "h1", fun _ => 0,
        .ok "h2", .ok ⟨"tx", "lnk"⟩⟩ "0xA" .warrior
      ⟨"N", "B", "A", none⟩ "boom" rfl rfl⟩

/-- **C7.** `getCharactersByOwner` equals the spec-side registry contract
(enumerate ids 1..totalSupply, filter by case-insensitive owner match, report
the filtered count as the total, paginate the filtered list afterwards with
offset `(page-1)*pageSize` and limit `pageSize`); its page
contents are in ascending token-id order; and on the concrete 10-token
collection where `0xA` owns tokens 2, 5 (stored as `0xa`) and 9, it returns
`total = 3` and page 1 of size 2 is exactly tokens 2 and 5. -/
theorem getCharactersByOwner_spec_and_scenario :
    (∀ (s : ContractState) (ownerAddress : String) (page limit : Nat),
      getCharactersByOwner s ownerAddress page limit
        = listByOwnerSpec s ownerAddress page limit) ∧
    (∀ (s : ContractState) (ownerAddress : String) (page limit : Nat),
      ((getCharactersByOwner s ownerAddress page limit).1.map
        (fun pc => pc.tokenId)).Pairwise (· < ·)) ∧
    ((getCharactersByOwner
        (exec initialState
          [.mintOp "0xB" ⟨10, 10, 10, 10, 10, 10⟩ "u",
            .mintOp "0xA" ⟨10, 10, 10, 10, 10, 10⟩ "u",
            .mintOp "0xB" ⟨10, 10, 10, 10, 10, 10⟩ "u",
            .mintOp "0xC" ⟨10, 10, 10, 10, 10, 10⟩ "u",
            .mintOp "0xa" ⟨10, 10, 10, 10, 10, 10⟩ "u",
            .mintOp "0xD" ⟨10, 10, 10, 10, 10, 10⟩ "u",
            .mintOp "0xB" ⟨10, 10, 10, 10, 10, 10⟩ "u",
            .mintOp "0xC" ⟨10, 10, 10, 10, 10, 10⟩ "u",
            .mintOp "0xA" ⟨10, 10, 10, 10, 10, 10⟩ "u",
            .mintOp "0xB" ⟨10, 10, 10, 10, 10, 10⟩ "u"]) "0xA" 1 2).1.map
        (fun pc => pc.tokenId) = [2, 5]) ∧
    ((getCharactersByOwner
        (exec initialState
          [.mintOp "0xB" ⟨10, 10, 10, 10, 10, 10⟩ "u",
            .mintOp "0xA" ⟨10, 10, 10, 10, 10, 10⟩ "u",
            .mintOp "0xB" ⟨10, 10, 10, 10, 10, 10⟩ "u",
            .mintOp "0xC" ⟨10, 10, 10, 10, 10, 10⟩ "u",
            .mintOp "0xa" ⟨10, 10, 10, 10, 10, 10⟩ "u",
            .mintOp "0xD" ⟨10, 10, 10, 10, 10, 10⟩ "u",
            .mintOp "0xB" ⟨10, 10, 10, 10, 10, 10⟩ "u",
            .mintOp "0xC" ⟨10, 10, 10, 10, 10, 10⟩ "u",
            .mintOp "0xA" ⟨10, 10, 10, 10, 10, 10⟩ "u",
            .mintOp "0xB" ⟨10, 10, 10, 10, 10, 10⟩ "u"]) "0xA" 1 2).2 = 3) ∧
    ((getCharactersByOwner
        (exec initialState
          [.mintOp "0xB" ⟨10, 10, 10, 10, 10, 10⟩ "u",
            .mintOp "0xA" ⟨10, 10, 10, 10, 10, 10⟩ "u",
            .mintOp "0xB" ⟨10, 10, 10, 10, 10, 10⟩ "u",
            .mintOp "0xC" ⟨10, 10, 10, 10, 10, 10⟩ "u",
            .mintOp "0xa" ⟨10, 10, 10, 10, 10, 10⟩ "u",
            .mintOp "0xD" ⟨10, 10, 10, 10, 10, 10⟩ "u",
            .mintOp "0xB" ⟨10, 10, 10, 10, 10, 10⟩ "u",
            .mintOp "0xC" ⟨10, 10, 10, 10, 10, 10⟩ "u",
            .mintOp "0xA" ⟨10, 10, 10, 10, 10, 10⟩ "u",
            .mintOp "0xB" ⟨10, 10, 10, 10, 10, 10⟩ "u"]) "0xA" 2 2).1.map
        (fun pc => pc.tokenId) = [9]) := by
  have main : ∀ (s : ContractState) (ownerAddress : String) (page limit : Nat),
      getCharactersByOwner s ownerAddress page limit
        = listByOwnerSpec s ownerAddress page limit := by
    intro s addr page limit
    unfold getCharactersByOwner listByOwnerSpec
    dsimp only
    by_cases h0 : totalSupply s = 0
    · simp [h0, List.range']
    · rw [if_neg h0]
      rw [registry_foldl]
      simp
  refine ⟨main, ?_, by decide, by decide, by decide⟩
  intro s addr page limit
  rw [main]
  unfold listByOwnerSpec
  dsimp only
  rw [List.map_take, List.map_drop, List.map_map]
  have hmapid : (List.map
      ((fun pc : ProcessedCharacter => pc.tokenId) ∘
        (fun id => { tokenId := id, owner := s.ownerOfTok id
                     character := s.characters id }))
      ((List.range' 1 (totalSupply s)).filter
        (fun id => decide (lowerStr (s.ownerOfTok id) = lowerStr addr))))
      = (List.range' 1 (totalSupply s)).filter
        (fun id => decide (lowerStr (s.ownerOfTok id) = lowerStr addr)) := by
    rw [show ((fun pc : ProcessedCharacter => pc.tokenId) ∘
        (fun id => { tokenId := id, owner := s.ownerOfTok id
                     character := s.characters id })) = fun id : Nat => id from rfl]
    exact List.map_id _
  rw [hmapid]
  have hsub : ((((List.range' 1 (totalSupply s)).filter
        (fun id => decide (lowerStr (s.ownerOfTok id) = lowerStr addr))).drop
        ((page - 1) * limit)).take limit).Sublist (List.range' 1 (totalSupply s)) :=
    ((List.take_sublist _ _).trans (List.drop_sublist _ _)).trans
      (List.filter_sublist _)
  exact (List.pairwise_lt_range' 1 (totalSupply s)).sublist hsub

/-- Witness for the spec-equality conjunct of C7 at a concrete input (the
claim theorem's universally quantified conjuncts instantiated at the
scenario collection). -/
theorem getCharactersByOwner_spec_and_scenario_witness :
    getCharactersByOwner
        (exec initialState
          [.mintOp "0xB" ⟨10, 10, 10, 10, 10, 10⟩ "u",
            .mintOp "0xA" ⟨10, 10, 10, 10, 10, 10⟩ "u"]) "0xA" 1 10
      = listByOwnerSpec
        (exec initialState
          [.mintOp "0xB" ⟨10, 10, 10, 10, 10, 10⟩ "u",
            .mintOp "0xA" ⟨10, 10, 10, 10, 10, 10⟩ "u"]) "0xA" 1 10 :=
  getCharactersByOwner_spec_and_scenario.1
    (exec initialState
      [.mintOp "0xB" ⟨10, 10, 10, 10, 10, 10⟩ "u",
        .mintOp "0xA" ⟨10, 10, 10, 10, 10, 10⟩ "u"]) "0xA" 1 10

/-- **C8 counterexample.** The claim says the progression engine rejects a
negative experience amount with a validation failure before any state change
rather than passing it through.  `CharacterService.gainExperience` performs
no validation: at `amount = -5` it issues the ledger invocation carrying
`-5` (the request list is nonempty, holding the amount unchanged), and the
failure it surfaces is the wallet service's method-dispatch throw
`Unsupported method: gainExperience`, wrapped as the generic `ServiceError`
of code `EXPERIENCE_GAIN_FAILED` — identical for a positive amount, so it is
no validation of negativity at all. -/
theorem serviceGainExperience_passthrough_counterexample :
    ((serviceGainExperience 1 (-5) (.ok "tx")).1 =
      [{ methodName := "gainExperience", argTokenId := 1, argAmount := -5 }]) ∧
    ((serviceGainExperience 1 (-5) (.ok "tx")).1 ≠ []) ∧
    ((serviceGainExperience 1 (-5) (.ok "tx")).2 =
      .error { message := "Failed to gain experience: Unsupported method: gainExperience"
               code := some "EXPERIENCE_GAIN_FAILED" }) ∧
    ((serviceGainExperience 1 5 (.ok "tx")).2
      = (serviceGainExperience 1 (-5) (.ok "tx")).2) := by
  refine ⟨by decide, by decide, by rfl, by rfl⟩

/-- **C8 (amended).** The progression engine performs no input validation of
its own: `CharacterService.gainExperience` forwards `tokenId` and `amount`
unchanged into the wallet-service invocation for every amount, negative
included; the failure a negative amount meets is not a validation failure
but `WalletService.invokeContract`'s method-dispatch throw
`Unsupported method: gainExperience`, raised for every amount before any
encoding or on-chain submission and wrapped by the service as a
`ServiceError` with code `EXPERIENCE_GAIN_FAILED`; the ledger is never
invoked on this path, so the contract state cannot change (and on-chain the
amount parameter is an unsigned `uint256`, so a negative amount is
unrepresentable there). -/
theorem serviceGainExperience_no_validation :
    (∀ (tokenId amount : ℤ) (walletOutcome : Except String String),
      (serviceGainExperience tokenId amount walletOutcome).1 =
        [{ methodName := "gainExperience", argTokenId := tokenId
           argAmount := amount }]) ∧
    (∀ (tokenId amount : ℤ) (walletOutcome : Except String String),
      (serviceGainExperience tokenId amount walletOutcome).2 =
        .error { message := "Failed to gain experience: Unsupported method: gainExperience"
                 code := some "EXPERIENCE_GAIN_FAILED" }) ∧
    (∀ (walletOutcome : Except String String),
      invokeContractDispatch "gainExperience" walletOutcome =
        .error "Unsupported method: gainExperience") := by
  refine ⟨fun tokenId amount w => rfl, fun tokenId amount w => ?_, fun w => ?_⟩
  · unfold serviceGainExperience invokeContractDispatch
    rw [if_neg (by decide)]
    rfl
  · unfold invokeContractDispatch
    rw [if_neg (by decide)]
    rfl

end DnD
